import Mathlib

/-!
# Player movement controller (`src/src/player.cpp`)

A shallow embedding of `movePlayer`, the per-frame movement controller of the
platform-game character, and theorems about it.

Modelling conventions.

* A C++ `float` value is the rational it denotes. `movePlayer` and its stages
  compute with these rationals exactly and take the decimal literals `0.01f`,
  `0.7f`, `0.6f`, `2.5f`, ... at face value (`1/100`, `7/10`, `3/5`, `5/2`,
  ...); the thresholds `0.1f` and `-0.1f` of the animation state are the
  binary32 values, because the `float` value `0.1f` is itself above 1/10, while
  no `float` separates `0.01f` from 1/100 or `0.7f` from 7/10.
  `movePlayerF32` and its stages are the same call with every operation that
  can round followed by the rounding to binary32 (`roundF32`) and with the
  binary32 values of the constants. What depends only on comparisons, flags and
  on which collaborator calls are made is stated on `movePlayer`; what depends
  on the rounding of the timers or of the deceleration force is stated on the
  binary32 definitions.
* The function-local `static` variables of `movePlayer` are the fields of
  `PlayerState`; one call of `movePlayer` is a function from the state before
  the call and the call's inputs to the state after the call and the calls made
  into the physics, animation and audio collaborators (`TickOutput`).
* Everything `movePlayer` reads from a collaborator during the call (velocity,
  contact data, mass, sound status, the player game object's fields) is part of
  `TickInput`.
-/

namespace Player

/-! ## Box2D handles and data read from the physics engine -/

/-- Box2D body handle (`b2BodyId`): index, world and generation. -/
structure b2BodyId where
  index1 : Int
  world0 : Nat
  generation : Nat
deriving DecidableEq, Repr

/-- Box2D `b2_nullBodyId`. -/
def b2_nullBodyId : b2BodyId := ⟨0, 0, 0⟩

/-- Box2D `B2_IS_NULL(id)`: the index is zero. -/
def B2_IS_NULL (id : b2BodyId) : Bool := id.index1 == 0

/-- Box2D `B2_ID_EQUALS(id1, id2)`: all three components agree. -/
def B2_ID_EQUALS (id1 id2 : b2BodyId) : Bool :=
  id1.index1 == id2.index1 && id1.world0 == id2.world0 && id1.generation == id2.generation

/-- Box2D `b2Vec2`. -/
structure b2Vec2 where
  x : ℚ
  y : ℚ
deriving DecidableEq, Repr

/-- One entry of the array filled by `b2Body_GetContactData`: the bodies of
the two shapes (`b2Shape_GetBody(shapeIdA)`, `b2Shape_GetBody(shapeIdB)`), and
of the manifold its `pointCount` and the `y` component of its `normal`. -/
structure b2ContactData where
  bodyA : b2BodyId
  bodyB : b2BodyId
  pointCount : Int
  normalY : ℚ
deriving DecidableEq, Repr

/-- The fields of `GameObject` that `movePlayer` reads. -/
structure GameObject where
  bodyId : b2BodyId
  canJumpOn : Bool
  spriteFlipped : Bool
  currentAnimationName : String
deriving DecidableEq, Repr

/-! ## IEEE-754 binary32 rounding

The C++ type `float` is IEEE-754 binary32: 24 significant bits, exponents from
-126 up, round to nearest with ties to even. A `float` value is the rational it
denotes, and a `float` operation is the exact operation on rationals followed
by `roundF32`. Overflow to infinity and NaN are not modelled. -/

/-- Round to the nearest integer, ties to the even one. -/
def roundNearestEven (x : ℚ) : ℤ :=
  if x - ⌊x⌋ < 1 / 2 then ⌊x⌋
  else if 1 / 2 < x - ⌊x⌋ then ⌊x⌋ + 1
  else if ⌊x⌋ % 2 = 0 then ⌊x⌋
  else ⌊x⌋ + 1

/-- The binary32 exponent of `x`: the floor of the base-2 logarithm of `|x|`,
and -126 throughout the subnormal range. -/
def f32Exponent (x : ℚ) : ℤ := max (Int.log 2 |x|) (-126)

/-- The spacing of the binary32 values around `x` (24 significant bits). -/
def f32Ulp (x : ℚ) : ℚ := 2 ^ (f32Exponent x - 23)

/-- Rounding of a rational to binary32, round to nearest, ties to even. -/
def roundF32 (x : ℚ) : ℚ := roundNearestEven (x / f32Ulp x) * f32Ulp x

/-- The binary32 value of the literal `0.1f`, slightly above 1/10. -/
def F32_0_1 : ℚ := 13421773 / 134217728

/-! ## Player physics parameters (player.cpp lines 54-77) -/

def PLAYER_MAX_SPEED : ℚ := 20
def PLAYER_GROUND_ACCELERATION : ℚ := 100
def PLAYER_AIR_ACCELERATION : ℚ := 60
def PLAYER_GROUND_DECELERATION : ℚ := 100
def PLAYER_TURN_SPEED_FACTOR : ℚ := 3 / 2
def PLAYER_JUMP_HEIGHT : ℚ := 5
def PLAYER_TIME_TO_JUMP_APEX : ℚ := 6 / 10
def PLAYER_FALL_GRAVITY_FACTOR : ℚ := 5
def PLAYER_JUMP_CUT_GRAVITY_FACTOR : ℚ := 5 / 2
def WORLD_GRAVITY_MAGNITUDE : ℚ := 10
def PLAYER_EFFECTIVE_GRAVITY_MAGNITUDE : ℚ :=
  (2 * PLAYER_JUMP_HEIGHT) / (PLAYER_TIME_TO_JUMP_APEX * PLAYER_TIME_TO_JUMP_APEX)
def PLAYER_INITIAL_JUMP_VELOCITY : ℚ :=
  PLAYER_EFFECTIVE_GRAVITY_MAGNITUDE * PLAYER_TIME_TO_JUMP_APEX
def PLAYER_BASE_GRAVITY_SCALE : ℚ :=
  PLAYER_EFFECTIVE_GRAVITY_MAGNITUDE / WORLD_GRAVITY_MAGNITUDE
def PLAYER_COYOTE_TIME : ℚ := 0
def PLAYER_JUMP_BUFFER_TIME : ℚ := 1 / 10

/-! ## State, inputs and outputs of one call -/

/-- The `static` player state variables (player.cpp lines 80-86). -/
structure PlayerState where
  isGrounded : Bool
  wasGroundedLastFrame : Bool
  isJumping : Bool
  coyoteTimer : ℚ
  jumpBufferTimer : ℚ
  previousJumpKeyHeld : Bool
deriving DecidableEq, Repr

/-- The initial values of the `static` state variables. -/
def initialState : PlayerState where
  isGrounded := false
  wasGroundedLastFrame := false
  isJumping := false
  coyoteTimer := PLAYER_COYOTE_TIME
  jumpBufferTimer := PLAYER_JUMP_BUFFER_TIME
  previousJumpKeyHeld := false

/-- Arguments of one call of `movePlayer` together with what the call reads
from its collaborators: `playerVel` is `b2Body_GetLinearVelocity`, `contacts`
the contact data of the player body in the order `b2Body_GetContactData`
reports them, `playerMass` is `b2Body_GetMass`, and the two sound flags say
whether `getStatus()` of the cue is `Playing`. -/
structure TickInput where
  playerBodyId : b2BodyId
  playerGameObject : GameObject
  allGameObjects : List GameObject
  jumpKeyHeld : Bool
  leftKeyHeld : Bool
  rightKeyHeld : Bool
  dt : ℚ
  playerVel : b2Vec2
  contacts : List b2ContactData
  playerMass : ℚ
  jumpSoundPlaying : Bool
  runningSoundPlaying : Bool
deriving DecidableEq, Repr

/-- The calls one call of `movePlayer` makes into its collaborators: the
argument of each call, `none` (or `false`) when the call is not made. -/
structure TickOutput where
  setLinearVelocity : Option b2Vec2
  jumpSoundPlay : Bool
  setGravityScale : Option ℚ
  setPlayerAnimation : Option (String × Bool)
  applyForceToCenter : Option b2Vec2
  runningSoundPlay : Bool
  runningSoundStop : Bool
deriving DecidableEq, Repr

/-- No collaborator is called (the early `return` of line 53). -/
def TickOutput.skipped : TickOutput where
  setLinearVelocity := none
  jumpSoundPlay := false
  setGravityScale := none
  setPlayerAnimation := none
  applyForceToCenter := none
  runningSoundPlay := false
  runningSoundStop := false

/-! ## The stages of `movePlayer` -/

/-- Helper `sign` (player.cpp lines 43-47). -/
def sign (val : ℚ) : ℚ :=
  if val > 0 then 1 else if val < 0 then -1 else 0

/-- Edge detection (line 90). -/
def jumpKeyJustPressed (s : PlayerState) (inp : TickInput) : Bool :=
  inp.jumpKeyHeld && !s.previousJumpKeyHeld

/-- Facing direction (lines 95-99): the two `if`s run in order, so the right
key has the last word. -/
def targetFacingLeft (inp : TickInput) : Bool :=
  let currentFacingLeft := inp.playerGameObject.spriteFlipped
  let t0 := currentFacingLeft
  let t1 := if inp.leftKeyHeld then true else t0
  if inp.rightKeyHeld then false else t1

/-- The inner loop over `allGameObjects` (lines 128-135): the first object
whose body is `otherBodyId` decides, then `break`. The result is the value of
`isGrounded` after the loop (it is `false` before it). -/
def objectScan (otherBodyId : b2BodyId) (supportingNormalY : ℚ) : List GameObject → Bool
  | [] => false
  | gameObject :: rest =>
    if B2_ID_EQUALS otherBodyId gameObject.bodyId then
      gameObject.canJumpOn && decide (supportingNormalY > 7 / 10)
    else objectScan otherBodyId supportingNormalY rest

/-- The loop over the sampled contacts (lines 110-138), started with
`isGrounded = false`; the result is `isGrounded` after the loop. -/
def contactScan (playerBodyId : b2BodyId) (allGameObjects : List GameObject) :
    List b2ContactData → Bool
  | [] => false
  | c :: rest =>
    if c.pointCount > 0 then
      if B2_ID_EQUALS c.bodyA playerBodyId then
        if objectScan c.bodyB (-c.normalY) allGameObjects then true
        else contactScan playerBodyId allGameObjects rest
      else if B2_ID_EQUALS c.bodyB playerBodyId then
        if objectScan c.bodyA c.normalY allGameObjects then true
        else contactScan playerBodyId allGameObjects rest
      else contactScan playerBodyId allGameObjects rest
    else contactScan playerBodyId allGameObjects rest

/-- The condition of line 103 under which the contact scan is skipped. -/
def groundCheckSuppressed (s : PlayerState) (inp : TickInput) : Bool :=
  !s.isGrounded && decide (inp.playerVel.y > 1 / 100) && inp.jumpKeyHeld

/-- Ground check (lines 101-139): the value of `isGrounded` at line 140.
`b2Body_GetContactData(playerBodyId, contactData, 10)` fills at most 10
entries. -/
def groundCheck (s : PlayerState) (inp : TickInput) : Bool :=
  if groundCheckSuppressed s inp then false
  else contactScan inp.playerBodyId inp.allGameObjects (inp.contacts.take 10)

/-- Coyote timer after lines 141-146, the subtraction exact (see
`coyoteTimerUpdatedF32` for the rounded one). -/
def coyoteTimerUpdated (s : PlayerState) (inp : TickInput) : ℚ :=
  if groundCheck s inp then PLAYER_COYOTE_TIME else max 0 (s.coyoteTimer - inp.dt)

/-- The flag `isJumping` after lines 141-146. -/
def isJumpingUpdated (s : PlayerState) (inp : TickInput) : Bool :=
  if groundCheck s inp then false else s.isJumping

/-- Jump buffer timer after lines 149-153, the subtraction exact and the
buffer duration taken as 1/10 (see `jumpBufferTimerUpdatedF32` for the rounded
subtraction and the binary32 duration). -/
def jumpBufferTimerUpdated (s : PlayerState) (inp : TickInput) : ℚ :=
  if jumpKeyJustPressed s inp then PLAYER_JUMP_BUFFER_TIME
  else max 0 (s.jumpBufferTimer - inp.dt)

/-- Line 155; `wasGroundedLastFrame` was set to the stored `isGrounded` on
line 102. -/
def justLanded (s : PlayerState) (inp : TickInput) : Bool :=
  groundCheck s inp && !s.isGrounded

/-- Line 158. -/
def canJumpFromState (s : PlayerState) (inp : TickInput) : Bool :=
  groundCheck s inp || decide (coyoteTimerUpdated s inp > 0)

/-- Line 159. -/
def tryJumpFromBuffer (s : PlayerState) (inp : TickInput) : Bool :=
  justLanded s inp && decide (jumpBufferTimerUpdated s inp > 0)

/-- The condition of the `if` on line 161. -/
def launches (s : PlayerState) (inp : TickInput) : Bool :=
  tryJumpFromBuffer s inp || (jumpKeyJustPressed s inp && canJumpFromState s inp)

/-- Gravity modification (lines 176-190), as a function of the values of
`isJumping` and `isGrounded` at line 176. -/
def currentGravityScale (isJumping isGrounded : Bool) (velY : ℚ) (jumpKeyHeld : Bool) : ℚ :=
  let g0 := PLAYER_BASE_GRAVITY_SCALE
  let g1 :=
    if isJumping && decide (velY > 1 / 100) then
      if jumpKeyHeld then PLAYER_BASE_GRAVITY_SCALE
      else PLAYER_BASE_GRAVITY_SCALE * PLAYER_JUMP_CUT_GRAVITY_FACTOR
    else if velY < -(1 / 100) then PLAYER_BASE_GRAVITY_SCALE * PLAYER_FALL_GRAVITY_FACTOR
    else g0
  if isGrounded && !isJumping then PLAYER_BASE_GRAVITY_SCALE else g1

/-- Animation state (lines 197-217). The comparisons of lines 205 and 207 are
with the binary32 values of `0.1f` and `-0.1f`; a comparison of two `float`
values is exact. -/
def nextAnimation (isGrounded leftKeyHeld rightKeyHeld : Bool) (velY : ℚ)
    (currentAnimationName : String) : String :=
  if isGrounded then
    if leftKeyHeld || rightKeyHeld then "walk" else "idle"
  else
    if velY > F32_0_1 then "jump"
    else if velY < -F32_0_1 then "fall"
    else if currentAnimationName == "jump" || currentAnimationName == "fall" then
      currentAnimationName
    else "fall"

/-- The input direction of line 227. -/
def direction (leftKeyHeld : Bool) : ℚ := if leftKeyHeld then -1 else 1

/-- The acceleration rate of lines 228-233. -/
def accelRate (isGrounded leftKeyHeld : Bool) (currentVelX : ℚ) : ℚ :=
  let a0 := if isGrounded then PLAYER_GROUND_ACCELERATION else PLAYER_AIR_ACCELERATION
  if sign currentVelX ≠ 0 ∧ sign currentVelX ≠ direction leftKeyHeld then
    a0 * PLAYER_TURN_SPEED_FACTOR
  else a0

/-- Horizontal movement (lines 222-249): the value of `forceX` at line 251,
as a function of the value of `isGrounded` at line 226, every operation exact
(see `forceXF32` for the rounded operations). The divisions are those of `ℚ`,
where `x / 0 = 0`; the C++ `float` divisions by `playerMass = 0` or `dt = 0`
give an infinity or a NaN instead, so results that depend on such a division
are only meaningful for `playerMass ≠ 0` and `dt ≠ 0`. -/
def forceX (isGrounded leftKeyHeld rightKeyHeld : Bool) (currentVelX playerMass dt : ℚ) : ℚ :=
  if leftKeyHeld || rightKeyHeld then
    if (direction leftKeyHeld > 0 ∧ currentVelX < PLAYER_MAX_SPEED) ∨
        (direction leftKeyHeld < 0 ∧ currentVelX > -PLAYER_MAX_SPEED) then
      direction leftKeyHeld * accelRate isGrounded leftKeyHeld currentVelX * playerMass
    else 0
  else
    if isGrounded = true ∧ |currentVelX| > 1 / 100 then
      let decelForceMagnitude := PLAYER_GROUND_DECELERATION * playerMass
      let f := -sign currentVelX * decelForceMagnitude
      if |f * dt / playerMass| > |currentVelX| then -currentVelX * playerMass / dt else f
    else 0

/-! ## One call of `movePlayer`, and runs of calls -/

/-- One call of `movePlayer` (player.cpp lines 49-267): the state after the
call and the collaborator calls made. -/
def movePlayer (s : PlayerState) (inp : TickInput) : PlayerState × TickOutput :=
  if B2_IS_NULL inp.playerBodyId then (s, TickOutput.skipped)
  else
    let playerVel := inp.playerVel
    let launch := launches s inp
    -- values at line 175, after the launch block
    let isJumping := if launch then true else isJumpingUpdated s inp
    let jumpBufferTimer := if launch then 0 else jumpBufferTimerUpdated s inp
    let coyoteTimer := if launch then 0 else coyoteTimerUpdated s inp
    let isGrounded := if launch then false else groundCheck s inp
    let fx := forceX isGrounded inp.leftKeyHeld inp.rightKeyHeld playerVel.x inp.playerMass inp.dt
    let running := isGrounded && (inp.leftKeyHeld || inp.rightKeyHeld)
    ({ isGrounded := isGrounded
       wasGroundedLastFrame := s.isGrounded
       isJumping := isJumping
       coyoteTimer := coyoteTimer
       jumpBufferTimer := jumpBufferTimer
       previousJumpKeyHeld := inp.jumpKeyHeld },
     { setLinearVelocity :=
         if launch then some ⟨playerVel.x, PLAYER_INITIAL_JUMP_VELOCITY⟩ else none
       jumpSoundPlay := launch && !inp.jumpSoundPlaying
       setGravityScale := some (currentGravityScale isJumping isGrounded playerVel.y inp.jumpKeyHeld)
       setPlayerAnimation :=
         some (nextAnimation isGrounded inp.leftKeyHeld inp.rightKeyHeld playerVel.y
                 inp.playerGameObject.currentAnimationName,
               targetFacingLeft inp)
       applyForceToCenter := if fx ≠ 0 then some ⟨fx, 0⟩ else none
       runningSoundPlay := running && !inp.runningSoundPlaying
       runningSoundStop := !running && inp.runningSoundPlaying })

/-- The state after a run of calls. -/
def runTicks (s : PlayerState) : List TickInput → PlayerState
  | [] => s
  | inp :: rest => runTicks (movePlayer s inp).1 rest

/-! ## Concrete scenes used to instantiate the theorems -/

/-- A valid player body handle. -/
def demoPlayerId : b2BodyId := ⟨1, 0, 1⟩

/-- The body handle of a platform. -/
def demoPlatformId : b2BodyId := ⟨2, 0, 1⟩

/-- The player's game object, facing right, showing "idle". -/
def demoPlayerObject : GameObject := ⟨demoPlayerId, false, false, "idle"⟩

/-- A platform that can be jumped on. -/
def demoPlatform : GameObject := ⟨demoPlatformId, true, false, ""⟩

/-- A contact in which the player (shape B) stands on the platform (shape A):
the manifold normal points from A to B, straight up. -/
def demoStandingContact : b2ContactData := ⟨demoPlatformId, demoPlayerId, 2, 1⟩

/-- A tick at 60 Hz with no key held, the player at rest and touching nothing. -/
def demoAirTick : TickInput where
  playerBodyId := demoPlayerId
  playerGameObject := demoPlayerObject
  allGameObjects := [demoPlayerObject, demoPlatform]
  jumpKeyHeld := false
  leftKeyHeld := false
  rightKeyHeld := false
  dt := 1 / 60
  playerVel := ⟨0, 0⟩
  contacts := []
  playerMass := 1
  jumpSoundPlaying := false
  runningSoundPlaying := false

/-- The same tick with the player standing on the platform. -/
def demoGroundTick : TickInput := { demoAirTick with contacts := [demoStandingContact] }

/-- A state in which the player has been standing with no key held. -/
def demoStandingState : PlayerState where
  isGrounded := true
  wasGroundedLastFrame := true
  isJumping := false
  coyoteTimer := 0
  jumpBufferTimer := 0
  previousJumpKeyHeld := false

/-- The gravity scaling policy as the specification words it (section 4.3):
five rules in priority order, over a base scale and the two multipliers. -/
def gravityScaleRules (isJumping isGrounded : Bool) (velY : ℚ) (jumpKeyHeld : Bool)
    (base jumpCut fall : ℚ) : ℚ :=
  if isGrounded = true ∧ isJumping = false then base
  else if isJumping = true ∧ velY > 1 / 100 ∧ jumpKeyHeld = true then base
  else if isJumping = true ∧ velY > 1 / 100 ∧ jumpKeyHeld = false then base * jumpCut
  else if velY < -(1 / 100) then base * fall
  else base

/-- The airborne tick with the jump key held. -/
def demoAirTickHeld : TickInput := { demoAirTick with jumpKeyHeld := true }

/-- The standing tick with the jump key held. -/
def demoGroundTickHeld : TickInput := { demoGroundTick with jumpKeyHeld := true }

/-- A state in the rising part of a jump with the jump key held so far. -/
def demoRisingState : PlayerState where
  isGrounded := false
  wasGroundedLastFrame := false
  isJumping := true
  coyoteTimer := 0
  jumpBufferTimer := 0
  previousJumpKeyHeld := true

/-- An airborne tick with no key held on which the player rises at `velY`. -/
def demoRisingTick (velY : ℚ) : TickInput := { demoAirTick with playerVel := ⟨0, velY⟩ }

/-- The collaborator calls made by each call of a run, in order. -/
def runOutputs (s : PlayerState) : List TickInput → List TickOutput
  | [] => []
  | inp :: rest => (movePlayer s inp).2 :: runOutputs (movePlayer s inp).1 rest

/-- A grounded tick with the right key held and the player moving right at
`velX`. -/
def demoRunTick (velX : ℚ) : TickInput :=
  { demoGroundTick with rightKeyHeld := true, playerVel := ⟨velX, 0⟩ }

/-- The condition under which line 246 (`forceX = -currentVelX * playerMass / dt`)
is executed: the `else` branch of line 239 (no direction held), the `if` of
line 240 and the `if` of line 245. -/
def decelClampTaken (isGrounded leftKeyHeld rightKeyHeld : Bool)
    (currentVelX playerMass dt : ℚ) : Bool :=
  !(leftKeyHeld || rightKeyHeld) && isGrounded && decide (|currentVelX| > 1 / 100) &&
    decide (|(-sign currentVelX * (PLAYER_GROUND_DECELERATION * playerMass)) * dt / playerMass|
      > |currentVelX|)

/-- An airborne tick with no key held, vertical velocity `velY`, and the player
object currently showing the animation `anim`. -/
def demoAnimTick (velY : ℚ) (anim : String) : TickInput :=
  { demoAirTick with
    playerVel := ⟨0, velY⟩
    playerGameObject := { demoPlayerObject with currentAnimationName := anim } }

/-- The standing tick with both the left and the right key held. -/
def demoBothKeysTick : TickInput :=
  { demoGroundTick with leftKeyHeld := true, rightKeyHeld := true }

/-- The airborne tick with no key held and the given `dt`. -/
def demoAirTickDt (dt : ℚ) : TickInput := { demoAirTick with dt := dt }

/-! ## The call with binary32 arithmetic

The definitions above compute the timers and the forces in exact arithmetic.
The definitions of this section are the same stages with every `float`
operation that can round followed by `roundF32`, and with the binary32 values
of the constants. Comparisons, negation, `std::abs`, `std::max` and
multiplication by `1.0f` or `-1.0f` are exact in binary32 and carry no
rounding. The ground check, the edge detection, the facing direction and the
animation state contain no rounding operation and are shared. -/

/-- The binary32 value of `PLAYER_TIME_TO_JUMP_APEX` (`0.6f`). -/
def PLAYER_TIME_TO_JUMP_APEX_F32 : ℚ := roundF32 (6 / 10)

/-- The binary32 value of `PLAYER_EFFECTIVE_GRAVITY_MAGNITUDE` (line 73). -/
def PLAYER_EFFECTIVE_GRAVITY_MAGNITUDE_F32 : ℚ :=
  roundF32 (roundF32 (2 * PLAYER_JUMP_HEIGHT) /
    roundF32 (PLAYER_TIME_TO_JUMP_APEX_F32 * PLAYER_TIME_TO_JUMP_APEX_F32))

/-- The binary32 value of `PLAYER_INITIAL_JUMP_VELOCITY` (line 74). -/
def PLAYER_INITIAL_JUMP_VELOCITY_F32 : ℚ :=
  roundF32 (PLAYER_EFFECTIVE_GRAVITY_MAGNITUDE_F32 * PLAYER_TIME_TO_JUMP_APEX_F32)

/-- The binary32 value of `PLAYER_BASE_GRAVITY_SCALE` (line 75). -/
def PLAYER_BASE_GRAVITY_SCALE_F32 : ℚ :=
  roundF32 (PLAYER_EFFECTIVE_GRAVITY_MAGNITUDE_F32 / WORLD_GRAVITY_MAGNITUDE)

/-- The binary32 value of `PLAYER_JUMP_BUFFER_TIME` (`0.1f`). -/
def PLAYER_JUMP_BUFFER_TIME_F32 : ℚ := F32_0_1

/-- The initial values of the `static` state variables, in binary32. -/
def initialStateF32 : PlayerState :=
  { initialState with jumpBufferTimer := PLAYER_JUMP_BUFFER_TIME_F32 }

/-- Coyote timer after lines 141-146, the subtraction rounded. -/
def coyoteTimerUpdatedF32 (s : PlayerState) (inp : TickInput) : ℚ :=
  if groundCheck s inp then PLAYER_COYOTE_TIME
  else max 0 (roundF32 (s.coyoteTimer - inp.dt))

/-- Jump buffer timer after lines 149-153, the subtraction rounded. -/
def jumpBufferTimerUpdatedF32 (s : PlayerState) (inp : TickInput) : ℚ :=
  if jumpKeyJustPressed s inp then PLAYER_JUMP_BUFFER_TIME_F32
  else max 0 (roundF32 (s.jumpBufferTimer - inp.dt))

/-- The condition of the `if` on line 161 (lines 155-161), over the binary32
timers. -/
def launchesF32 (s : PlayerState) (inp : TickInput) : Bool :=
  (justLanded s inp && decide (jumpBufferTimerUpdatedF32 s inp > 0)) ||
    (jumpKeyJustPressed s inp &&
      (groundCheck s inp || decide (coyoteTimerUpdatedF32 s inp > 0)))

/-- Gravity modification (lines 176-190) with the binary32 constants and the two
products rounded. -/
def currentGravityScaleF32 (isJumping isGrounded : Bool) (velY : ℚ) (jumpKeyHeld : Bool) : ℚ :=
  let g0 := PLAYER_BASE_GRAVITY_SCALE_F32
  let g1 :=
    if isJumping && decide (velY > 1 / 100) then
      if jumpKeyHeld then PLAYER_BASE_GRAVITY_SCALE_F32
      else roundF32 (PLAYER_BASE_GRAVITY_SCALE_F32 * PLAYER_JUMP_CUT_GRAVITY_FACTOR)
    else if velY < -(1 / 100) then
      roundF32 (PLAYER_BASE_GRAVITY_SCALE_F32 * PLAYER_FALL_GRAVITY_FACTOR)
    else g0
  if isGrounded && !isJumping then PLAYER_BASE_GRAVITY_SCALE_F32 else g1

/-- Horizontal movement (lines 222-249) in binary32: the value of `forceX` at
line 251. With a direction held, `direction * accelRate` is one of the integers
60, 90, 100, 150 up to sign and is exact, so only the product with the mass
rounds. With no direction held, `PLAYER_GROUND_DECELERATION * playerMass`
rounds, the product with `-sign(currentVelX)` is exact, the test of line 245
rounds `forceX * dt` and then the quotient by `playerMass`, and line 246 rounds
`-currentVelX * playerMass` and then the quotient by `dt`. -/
def forceXF32 (isGrounded leftKeyHeld rightKeyHeld : Bool)
    (currentVelX playerMass dt : ℚ) : ℚ :=
  if leftKeyHeld || rightKeyHeld then
    if (direction leftKeyHeld > 0 ∧ currentVelX < PLAYER_MAX_SPEED) ∨
        (direction leftKeyHeld < 0 ∧ currentVelX > -PLAYER_MAX_SPEED) then
      roundF32 (direction leftKeyHeld * accelRate isGrounded leftKeyHeld currentVelX * playerMass)
    else 0
  else
    if isGrounded = true ∧ |currentVelX| > 1 / 100 then
      let decelForceMagnitude := roundF32 (PLAYER_GROUND_DECELERATION * playerMass)
      let f := -sign currentVelX * decelForceMagnitude
      if |roundF32 (roundF32 (f * dt) / playerMass)| > |currentVelX| then
        roundF32 (roundF32 (-currentVelX * playerMass) / dt)
      else f
    else 0

/-- One call of `movePlayer` (player.cpp lines 49-267) in binary32 arithmetic:
the state after the call and the collaborator calls made. -/
def movePlayerF32 (s : PlayerState) (inp : TickInput) : PlayerState × TickOutput :=
  if B2_IS_NULL inp.playerBodyId then (s, TickOutput.skipped)
  else
    let playerVel := inp.playerVel
    let launch := launchesF32 s inp
    -- values at line 175, after the launch block
    let isJumping := if launch then true else isJumpingUpdated s inp
    let jumpBufferTimer := if launch then 0 else jumpBufferTimerUpdatedF32 s inp
    let coyoteTimer := if launch then 0 else coyoteTimerUpdatedF32 s inp
    let isGrounded := if launch then false else groundCheck s inp
    let fx :=
      forceXF32 isGrounded inp.leftKeyHeld inp.rightKeyHeld playerVel.x inp.playerMass inp.dt
    let running := isGrounded && (inp.leftKeyHeld || inp.rightKeyHeld)
    ({ isGrounded := isGrounded
       wasGroundedLastFrame := s.isGrounded
       isJumping := isJumping
       coyoteTimer := coyoteTimer
       jumpBufferTimer := jumpBufferTimer
       previousJumpKeyHeld := inp.jumpKeyHeld },
     { setLinearVelocity :=
         if launch then some ⟨playerVel.x, PLAYER_INITIAL_JUMP_VELOCITY_F32⟩ else none
       jumpSoundPlay := launch && !inp.jumpSoundPlaying
       setGravityScale :=
         some (currentGravityScaleF32 isJumping isGrounded playerVel.y inp.jumpKeyHeld)
       setPlayerAnimation :=
         some (nextAnimation isGrounded inp.leftKeyHeld inp.rightKeyHeld playerVel.y
                 inp.playerGameObject.currentAnimationName,
               targetFacingLeft inp)
       applyForceToCenter := if fx ≠ 0 then some ⟨fx, 0⟩ else none
       runningSoundPlay := running && !inp.runningSoundPlaying
       runningSoundStop := !running && inp.runningSoundPlaying })

/-- The state after a run of calls in binary32 arithmetic. -/
def runTicksF32 (s : PlayerState) : List TickInput → PlayerState
  | [] => s
  | inp :: rest => runTicksF32 (movePlayerF32 s inp).1 rest

/-- Along the binary32 run `inps` started in `s`, every tick has a valid player
body and `dt >= 0`, resolves not grounded, and has no fresh jump press. -/
def staysAirborneNoPressF32 (s : PlayerState) : List TickInput → Bool
  | [] => true
  | inp :: rest =>
    !B2_IS_NULL inp.playerBodyId && decide (0 ≤ inp.dt) && !groundCheck s inp &&
      !jumpKeyJustPressed s inp && staysAirborneNoPressF32 (movePlayerF32 s inp).1 rest

/-- The timer `t` after the decrements of line 152 (or 145) by each of the
given `dt` values in turn, each subtraction rounded to binary32. -/
def f32Countdown (t : ℚ) : List ℚ → ℚ
  | [] => t
  | dt :: rest => f32Countdown (max 0 (roundF32 (t - dt))) rest

/-- The binary32 value nearest to 1/60, the `dt` of a 60 Hz tick. -/
def F32_1_60 : ℚ := 8947849 / 536870912

/-- The airborne tick with the jump key held and the binary32 `dt` of 60 Hz. -/
def demoAirTickHeldF32 : TickInput := { demoAirTickHeld with dt := F32_1_60 }

/-- The standing tick with the jump key held and the binary32 `dt` of 60 Hz. -/
def demoGroundTickHeldF32 : TickInput := { demoGroundTickHeld with dt := F32_1_60 }

/-- The condition under which line 246 is executed in binary32 arithmetic: the
`else` branch of line 239 (no direction held), the `if` of line 240 and the
`if` of line 245 with its two rounded operations. -/
def decelClampTakenF32 (isGrounded leftKeyHeld rightKeyHeld : Bool)
    (currentVelX playerMass dt : ℚ) : Bool :=
  !(leftKeyHeld || rightKeyHeld) && isGrounded && decide (|currentVelX| > 1 / 100) &&
    decide (|roundF32 (roundF32
        (-sign currentVelX * roundF32 (PLAYER_GROUND_DECELERATION * playerMass) * dt)
        / playerMass)| > |currentVelX|)

/-! ## Basic facts about one call -/

/-! ### Binary32 rounding -/

theorem roundNearestEven_abs_sub_le (y : ℚ) : |(roundNearestEven y : ℚ) - y| ≤ 1 / 2 := by
  have h1 := Int.floor_le y
  have h2 := Int.lt_floor_add_one y
  unfold roundNearestEven
  split_ifs with a b c
  · rw [abs_le]; constructor <;> linarith
  · rw [abs_le]; push_cast; constructor <;> linarith
  · rw [abs_le]; constructor <;> linarith
  · rw [abs_le]; push_cast; constructor <;> linarith

theorem roundNearestEven_of_close (y : ℚ) (m : ℤ) (h : |y - m| < 1 / 2) :
    roundNearestEven y = m := by
  have h1 := roundNearestEven_abs_sub_le y
  rw [abs_le] at h1
  rw [abs_lt] at h
  have h3 : ((roundNearestEven y - m : ℤ) : ℚ) < 1 := by push_cast; linarith
  have h4 : (-1 : ℚ) < ((roundNearestEven y - m : ℤ) : ℚ) := by push_cast; linarith
  have h5 : roundNearestEven y - m < 1 := by exact_mod_cast h3
  have h6 : -1 < roundNearestEven y - m := by exact_mod_cast h4
  omega

theorem roundNearestEven_of_tie (y : ℚ) (m : ℤ) (hm : m % 2 = 0)
    (h : y = m + 1 / 2 ∨ y = m - 1 / 2) : roundNearestEven y = m := by
  rcases h with h | h
  · have hf : ⌊y⌋ = m := by
      rw [Int.floor_eq_iff, h]
      constructor <;> linarith
    unfold roundNearestEven
    rw [hf, h]
    have e1 : (m : ℚ) + 1 / 2 - m = 1 / 2 := by ring
    rw [e1]
    simp [hm]
  · have hf : ⌊y⌋ = m - 1 := by
      rw [Int.floor_eq_iff, h]
      push_cast
      constructor <;> linarith
    unfold roundNearestEven
    rw [hf, h]
    have e1 : (m : ℚ) - 1 / 2 - ((m - 1 : ℤ) : ℚ) = 1 / 2 := by push_cast; ring
    rw [e1]
    have hodd : (m - 1) % 2 ≠ 0 := by omega
    simp [hodd]

theorem roundNearestEven_nonneg (y : ℚ) (h : 0 ≤ y) : 0 ≤ roundNearestEven y := by
  have hf : 0 ≤ ⌊y⌋ := Int.floor_nonneg.2 h
  unfold roundNearestEven
  split_ifs <;> omega

theorem roundNearestEven_nonpos (y : ℚ) (h : y ≤ 0) : roundNearestEven y ≤ 0 := by
  have h1 := Int.floor_le y
  have h2 := Int.lt_floor_add_one y
  have hf : ⌊y⌋ ≤ 0 := by
    have : ((⌊y⌋ : ℤ) : ℚ) ≤ 0 := le_trans h1 h
    exact_mod_cast this
  by_cases hz : ⌊y⌋ = 0
  · have hy : y = 0 := by
      rw [hz] at h1
      push_cast at h1
      linarith
    subst hy
    simp [roundNearestEven]
  · have hlt : ⌊y⌋ + 1 ≤ 0 := by omega
    unfold roundNearestEven
    split_ifs <;> omega

theorem f32Ulp_pos (x : ℚ) : 0 < f32Ulp x := by
  unfold f32Ulp
  exact zpow_pos (by norm_num) _

theorem f32Exponent_eq (x : ℚ) (e : ℤ) (he : -126 ≤ e) (h1 : 2 ^ e ≤ |x|)
    (h2 : |x| < 2 ^ (e + 1)) : f32Exponent x = e := by
  have hpos : 0 < |x| := lt_of_lt_of_le (zpow_pos (by norm_num) e) h1
  have ha : e ≤ Int.log 2 |x| :=
    (Int.zpow_le_iff_le_log (by norm_num) hpos).1 (by exact_mod_cast h1)
  have hb : Int.log 2 |x| < e + 1 :=
    (Int.lt_zpow_iff_log_lt (by norm_num) hpos).1 (by exact_mod_cast h2)
  unfold f32Exponent
  rw [max_eq_left (by omega)]
  omega

theorem roundF32_eq_of_close (x : ℚ) (e m : ℤ) (he : -126 ≤ e) (h1 : 2 ^ e ≤ |x|)
    (h2 : |x| < 2 ^ (e + 1)) (hm : |x / 2 ^ (e - 23) - m| < 1 / 2) :
    roundF32 x = m * 2 ^ (e - 23) := by
  unfold roundF32 f32Ulp
  rw [f32Exponent_eq x e he h1 h2, roundNearestEven_of_close _ m hm]

theorem roundF32_eq_of_tie (x : ℚ) (e m : ℤ) (he : -126 ≤ e) (h1 : 2 ^ e ≤ |x|)
    (h2 : |x| < 2 ^ (e + 1)) (hm : m % 2 = 0)
    (ht : x / 2 ^ (e - 23) = m + 1 / 2 ∨ x / 2 ^ (e - 23) = m - 1 / 2) :
    roundF32 x = m * 2 ^ (e - 23) := by
  unfold roundF32 f32Ulp
  rw [f32Exponent_eq x e he h1 h2, roundNearestEven_of_tie _ m hm ht]

theorem roundF32_nonneg (x : ℚ) (h : 0 ≤ x) : 0 ≤ roundF32 x := by
  unfold roundF32
  have hq := f32Ulp_pos x
  have : (0 : ℚ) ≤ (roundNearestEven (x / f32Ulp x) : ℚ) := by
    exact_mod_cast roundNearestEven_nonneg _ (div_nonneg h (le_of_lt hq))
  exact mul_nonneg this (le_of_lt hq)

theorem roundF32_nonpos (x : ℚ) (h : x ≤ 0) : roundF32 x ≤ 0 := by
  unfold roundF32
  have hq := f32Ulp_pos x
  have : (roundNearestEven (x / f32Ulp x) : ℚ) ≤ 0 := by
    exact_mod_cast roundNearestEven_nonpos _ (div_nonpos_of_nonpos_of_nonneg h (le_of_lt hq))
  exact mul_nonpos_of_nonpos_of_nonneg this (le_of_lt hq)

theorem roundF32_abs_sub_le (x : ℚ) : |roundF32 x - x| ≤ f32Ulp x / 2 := by
  have hq := f32Ulp_pos x
  have h := roundNearestEven_abs_sub_le (x / f32Ulp x)
  have e1 : roundF32 x - x = ((roundNearestEven (x / f32Ulp x) : ℚ) - x / f32Ulp x) * f32Ulp x := by
    unfold roundF32
    field_simp
  rw [e1, abs_mul, abs_of_pos hq]
  calc |(roundNearestEven (x / f32Ulp x) : ℚ) - x / f32Ulp x| * f32Ulp x
      ≤ 1 / 2 * f32Ulp x := mul_le_mul_of_nonneg_right h (le_of_lt hq)
    _ = f32Ulp x / 2 := by ring

theorem roundF32_abs_sub_le_small (x : ℚ) (h0 : 0 < x) (h : x < 2 ^ (-3 : ℤ)) :
    |roundF32 x - x| ≤ 2 ^ (-28 : ℤ) := by
  have hlog : Int.log 2 |x| < -3 := by
    rw [abs_of_pos h0]
    exact (Int.lt_zpow_iff_log_lt (by norm_num) h0).1 (by exact_mod_cast h)
  have he : f32Exponent x - 23 ≤ -27 := by
    unfold f32Exponent
    have : max (Int.log 2 |x|) (-126) ≤ -4 := max_le (by omega) (by norm_num)
    omega
  have hu : f32Ulp x ≤ 2 ^ (-27 : ℤ) := by
    unfold f32Ulp
    exact zpow_le_zpow_right₀ (by norm_num) he
  calc |roundF32 x - x| ≤ f32Ulp x / 2 := roundF32_abs_sub_le x
    _ ≤ 2 ^ (-27 : ℤ) / 2 := div_le_div_of_nonneg_right hu (by norm_num)
    _ = 2 ^ (-28 : ℤ) := by norm_num

theorem roundF32_abs_sub_le_rel (x : ℚ) (h : 2 ^ (-126 : ℤ) ≤ |x|) :
    |roundF32 x - x| ≤ 2 ^ (-24 : ℤ) * |x| := by
  have hpos : 0 < |x| := lt_of_lt_of_le (zpow_pos (by norm_num) _) h
  have ha : (-126 : ℤ) ≤ Int.log 2 |x| :=
    (Int.zpow_le_iff_le_log (by norm_num) hpos).1 (by exact_mod_cast h)
  have he : f32Exponent x = Int.log 2 |x| := by
    unfold f32Exponent
    exact max_eq_left ha
  have hle : (2 : ℚ) ^ Int.log 2 |x| ≤ |x| := by
    have := Int.zpow_log_le_self (b := 2) (r := |x|) (by norm_num) hpos
    exact_mod_cast this
  have hu : f32Ulp x / 2 = 2 ^ (-24 : ℤ) * 2 ^ Int.log 2 |x| := by
    unfold f32Ulp
    rw [he, ← zpow_add₀ (by norm_num : (2 : ℚ) ≠ 0)]
    rw [show Int.log 2 |x| - 23 = (-24 + Int.log 2 |x|) + 1 by ring,
      zpow_add_one₀ (by norm_num : (2 : ℚ) ≠ 0)]
    ring
  calc |roundF32 x - x| ≤ f32Ulp x / 2 := roundF32_abs_sub_le x
    _ = 2 ^ (-24 : ℤ) * 2 ^ Int.log 2 |x| := hu
    _ ≤ 2 ^ (-24 : ℤ) * |x| := mul_le_mul_of_nonneg_left hle (by positivity)

theorem roundF32_tenth : roundF32 (1 / 10) = F32_0_1 := by
  rw [roundF32_eq_of_close (1 / 10) (-4) 13421773 (by norm_num) (by norm_num [abs_of_pos])
    (by norm_num [abs_of_pos]) (by norm_num [abs_lt])]
  norm_num [F32_0_1]

/-! ### One call -/

theorem groundCheck_demoGroundTick (s : PlayerState) : groundCheck s demoGroundTick = true := by
  simp [groundCheck, groundCheckSuppressed, demoGroundTick, demoAirTick, contactScan,
    demoStandingContact, objectScan, B2_ID_EQUALS, demoPlayerId, demoPlatformId,
    demoPlayerObject, demoPlatform]
  norm_num

theorem groundCheck_demoAirTick (s : PlayerState) (held : Bool) :
    groundCheck s { demoAirTick with jumpKeyHeld := held } = false := by
  simp [groundCheck, groundCheckSuppressed, demoAirTick, contactScan]

theorem base_gravity_scale_eq : PLAYER_BASE_GRAVITY_SCALE = 25 / 9 := by
  norm_num [PLAYER_BASE_GRAVITY_SCALE, PLAYER_EFFECTIVE_GRAVITY_MAGNITUDE,
    PLAYER_JUMP_HEIGHT, PLAYER_TIME_TO_JUMP_APEX, WORLD_GRAVITY_MAGNITUDE]

theorem movePlayer_state (s : PlayerState) (inp : TickInput)
    (h : B2_IS_NULL inp.playerBodyId = false) :
    (movePlayer s inp).1 =
      { isGrounded := if launches s inp then false else groundCheck s inp
        wasGroundedLastFrame := s.isGrounded
        isJumping := if launches s inp then true else isJumpingUpdated s inp
        coyoteTimer := if launches s inp then 0 else coyoteTimerUpdated s inp
        jumpBufferTimer := if launches s inp then 0 else jumpBufferTimerUpdated s inp
        previousJumpKeyHeld := inp.jumpKeyHeld } := by
  simp [movePlayer, h]

theorem movePlayer_setLinearVelocity (s : PlayerState) (inp : TickInput)
    (h : B2_IS_NULL inp.playerBodyId = false) :
    (movePlayer s inp).2.setLinearVelocity =
      if launches s inp then some ⟨inp.playerVel.x, PLAYER_INITIAL_JUMP_VELOCITY⟩ else none := by
  simp [movePlayer, h]

theorem movePlayer_null (s : PlayerState) (inp : TickInput)
    (h : B2_IS_NULL inp.playerBodyId = true) :
    movePlayer s inp = (s, TickOutput.skipped) := by
  simp [movePlayer, h]

theorem movePlayer_jumpSoundPlay (s : PlayerState) (inp : TickInput)
    (h : B2_IS_NULL inp.playerBodyId = false) :
    (movePlayer s inp).2.jumpSoundPlay = (launches s inp && !inp.jumpSoundPlaying) := by
  simp [movePlayer, h]

theorem movePlayerF32_null (s : PlayerState) (inp : TickInput)
    (h : B2_IS_NULL inp.playerBodyId = true) :
    movePlayerF32 s inp = (s, TickOutput.skipped) := by
  simp [movePlayerF32, h]

theorem movePlayerF32_state (s : PlayerState) (inp : TickInput)
    (h : B2_IS_NULL inp.playerBodyId = false) :
    (movePlayerF32 s inp).1 =
      { isGrounded := if launchesF32 s inp then false else groundCheck s inp
        wasGroundedLastFrame := s.isGrounded
        isJumping := if launchesF32 s inp then true else isJumpingUpdated s inp
        coyoteTimer := if launchesF32 s inp then 0 else coyoteTimerUpdatedF32 s inp
        jumpBufferTimer := if launchesF32 s inp then 0 else jumpBufferTimerUpdatedF32 s inp
        previousJumpKeyHeld := inp.jumpKeyHeld } := by
  simp [movePlayerF32, h]

theorem movePlayerF32_setLinearVelocity (s : PlayerState) (inp : TickInput)
    (h : B2_IS_NULL inp.playerBodyId = false) :
    (movePlayerF32 s inp).2.setLinearVelocity =
      if launchesF32 s inp then some ⟨inp.playerVel.x, PLAYER_INITIAL_JUMP_VELOCITY_F32⟩
      else none := by
  simp [movePlayerF32, h]

theorem initial_jump_velocity_F32_eq : PLAYER_INITIAL_JUMP_VELOCITY_F32 = 8738133 / 524288 := by
  have hT : roundF32 (6 / 10) = 5033165 / 8388608 := by
    have hx : (6 / 10 : ℚ) = 3 / 5 := by norm_num [F32_0_1]
    rw [hx, roundF32_eq_of_close (3 / 5) (-1) (10066330) (by norm_num)
      (by norm_num [abs_of_pos]) (by norm_num [abs_of_pos]) (by norm_num [abs_lt])]
    norm_num
  have hTT : roundF32 (5033165 / 8388608 * (5033165 / 8388608)) = 3019899 / 8388608 := by
    have hx : (5033165 / 8388608 * (5033165 / 8388608) : ℚ) = 25332749917225 / 70368744177664 := by norm_num [F32_0_1]
    rw [hx, roundF32_eq_of_close (25332749917225 / 70368744177664) (-2) (12079596) (by norm_num)
      (by norm_num [abs_of_pos]) (by norm_num [abs_of_pos]) (by norm_num [abs_lt])]
    norm_num
  have h10 : roundF32 (2 * 5) = 10 := by
    have hx : (2 * 5 : ℚ) = 10 := by norm_num [F32_0_1]
    rw [hx, roundF32_eq_of_close (10) (3) (10485760) (by norm_num)
      (by norm_num [abs_of_pos]) (by norm_num [abs_of_pos]) (by norm_num [abs_lt])]
    norm_num
  have hG : roundF32 (10 / (3019899 / 8388608)) = 14563555 / 524288 := by
    have hx : (10 / (3019899 / 8388608) : ℚ) = 83886080 / 3019899 := by norm_num [F32_0_1]
    rw [hx, roundF32_eq_of_close (83886080 / 3019899) (4) (14563555) (by norm_num)
      (by norm_num [abs_of_pos]) (by norm_num [abs_of_pos]) (by norm_num [abs_lt])]
    norm_num
  have hV : roundF32 (14563555 / 524288 * (5033165 / 8388608)) = 8738133 / 524288 := by
    have hx : (14563555 / 524288 * (5033165 / 8388608) : ℚ) = 73300775301575 / 4398046511104 := by norm_num [F32_0_1]
    rw [hx, roundF32_eq_of_close (73300775301575 / 4398046511104) (4) (8738133) (by norm_num)
      (by norm_num [abs_of_pos]) (by norm_num [abs_of_pos]) (by norm_num [abs_lt])]
    norm_num
  unfold PLAYER_INITIAL_JUMP_VELOCITY_F32 PLAYER_EFFECTIVE_GRAVITY_MAGNITUDE_F32
    PLAYER_TIME_TO_JUMP_APEX_F32 PLAYER_JUMP_HEIGHT
  rw [hT, hTT, h10, hG, hV]

theorem launches_iff (s : PlayerState) (inp : TickInput) :
    launches s inp = true ↔
      ((groundCheck s inp = true ∧ s.isGrounded = false) ∧ jumpBufferTimerUpdated s inp > 0) ∨
      ((inp.jumpKeyHeld = true ∧ s.previousJumpKeyHeld = false) ∧
        (groundCheck s inp = true ∨ coyoteTimerUpdated s inp > 0)) := by
  simp [launches, tryJumpFromBuffer, justLanded, canJumpFromState, jumpKeyJustPressed]

/-! ## The launch condition and the effects of a launch -/

/-- C1: on a tick with a valid player body, `movePlayer` launches a jump (calls
`b2Body_SetLinearVelocity`, and then leaves `isJumping` set) if and only if
(justLanded and jumpBufferTimer > 0) or (jumpKeyJustPressed and (isGrounded or
coyoteTimer > 0)), with jumpKeyJustPressed = jumpKeyHeld and not
previousJumpKeyHeld, justLanded = this tick's resolved grounded flag and not the
stored grounded flag of the previous tick, and the timers taken after this
tick's timer update. In particular, with resolved grounded = false and
coyoteTimer = 0 there is no launch, fresh press or not. -/
theorem C1_launch_condition (s : PlayerState) (inp : TickInput)
    (h : B2_IS_NULL inp.playerBodyId = false) :
    ((movePlayer s inp).2.setLinearVelocity.isSome = true ↔
      ((groundCheck s inp = true ∧ s.isGrounded = false) ∧ jumpBufferTimerUpdated s inp > 0) ∨
      ((inp.jumpKeyHeld = true ∧ s.previousJumpKeyHeld = false) ∧
        (groundCheck s inp = true ∨ coyoteTimerUpdated s inp > 0))) ∧
    ((movePlayer s inp).2.setLinearVelocity.isSome = true →
      (movePlayer s inp).1.isJumping = true) ∧
    (groundCheck s inp = false → coyoteTimerUpdated s inp = 0 →
      (movePlayer s inp).2.setLinearVelocity = none ∧
      (movePlayer s inp).1.isJumping = s.isJumping) := by
  rw [movePlayer_setLinearVelocity s inp h, movePlayer_state s inp h, ← launches_iff]
  refine ⟨?_, ?_, ?_⟩
  · cases launches s inp <;> simp
  · cases launches s inp <;> simp
  · intro hg hc
    have hl : launches s inp = false := by
      cases hb : launches s inp
      · rfl
      · rw [launches_iff] at hb
        simp [hg, hc] at hb
    simp [hl, isJumpingUpdated, hg]

/-- C1 at a concrete tick: standing on the platform, a fresh press launches. -/
theorem C1_launch_condition_witness :
    B2_IS_NULL ({ demoGroundTick with jumpKeyHeld := true } : TickInput).playerBodyId = false ∧
    (movePlayer demoStandingState { demoGroundTick with jumpKeyHeld := true }).1.isJumping
      = true := by
  have h : B2_IS_NULL ({ demoGroundTick with jumpKeyHeld := true } : TickInput).playerBodyId
      = false := by decide
  refine ⟨h, (C1_launch_condition demoStandingState _ h).2.1 ?_⟩
  rw [(C1_launch_condition demoStandingState _ h).1]
  right
  refine ⟨⟨rfl, rfl⟩, Or.inl ?_⟩
  simp [groundCheck, groundCheckSuppressed, demoGroundTick, demoAirTick, contactScan,
    demoStandingContact, objectScan, B2_ID_EQUALS, demoPlayerId, demoPlatformId,
    demoPlayerObject, demoPlatform, demoStandingState]
  norm_num

/-- C2: on a tick (valid player body) in which a launch occurs, the body's
velocity is set to (the horizontal velocity read at tick start, the precomputed
initial jump velocity, which is effective gravity * time to apex), and after the
tick isJumping = true, coyoteTimer = 0, jumpBufferTimer = 0 and isGrounded =
false; on a tick in which no launch occurs `b2Body_SetLinearVelocity` is not
called at all. The same holds of the call in binary32 arithmetic, where the
precomputed velocity is the binary32 value 8738133/524288 (0x1.0aaaaap+4). -/
theorem C2_launch_effects (s : PlayerState) (inp : TickInput)
    (h : B2_IS_NULL inp.playerBodyId = false) :
    (launches s inp = true →
      (movePlayer s inp).2.setLinearVelocity =
        some ⟨inp.playerVel.x, PLAYER_INITIAL_JUMP_VELOCITY⟩ ∧
      PLAYER_INITIAL_JUMP_VELOCITY =
        PLAYER_EFFECTIVE_GRAVITY_MAGNITUDE * PLAYER_TIME_TO_JUMP_APEX ∧
      (movePlayer s inp).1.isJumping = true ∧
      (movePlayer s inp).1.coyoteTimer = 0 ∧
      (movePlayer s inp).1.jumpBufferTimer = 0 ∧
      (movePlayer s inp).1.isGrounded = false) ∧
    (launches s inp = false → (movePlayer s inp).2.setLinearVelocity = none) ∧
    (launchesF32 s inp = true →
      (movePlayerF32 s inp).2.setLinearVelocity =
        some ⟨inp.playerVel.x, PLAYER_INITIAL_JUMP_VELOCITY_F32⟩ ∧
      PLAYER_INITIAL_JUMP_VELOCITY_F32 =
        roundF32 (PLAYER_EFFECTIVE_GRAVITY_MAGNITUDE_F32 * PLAYER_TIME_TO_JUMP_APEX_F32) ∧
      PLAYER_INITIAL_JUMP_VELOCITY_F32 = 8738133 / 524288 ∧
      (movePlayerF32 s inp).1.isJumping = true ∧
      (movePlayerF32 s inp).1.coyoteTimer = 0 ∧
      (movePlayerF32 s inp).1.jumpBufferTimer = 0 ∧
      (movePlayerF32 s inp).1.isGrounded = false) ∧
    (launchesF32 s inp = false → (movePlayerF32 s inp).2.setLinearVelocity = none) := by
  rw [movePlayer_setLinearVelocity s inp h, movePlayer_state s inp h,
    movePlayerF32_setLinearVelocity s inp h, movePlayerF32_state s inp h]
  refine ⟨fun hl => ?_, fun hl => ?_, fun hl => ?_, fun hl => ?_⟩
  · simp [hl, PLAYER_INITIAL_JUMP_VELOCITY]
  · simp [hl]
  · refine ⟨?_, rfl, initial_jump_velocity_F32_eq, ?_⟩
    · simp [hl]
    · simp [hl]
  · simp [hl]

/-- C2 at a concrete launch tick: standing on the platform at rest, the jump
key freshly pressed: the tick launches, the velocity is set to (0, initial jump
velocity), and the state after the tick is jumping, not grounded, with both
timers at 0. -/
theorem C2_launch_effects_witness :
    launches demoStandingState demoGroundTickHeld = true ∧
    (movePlayer demoStandingState demoGroundTickHeld).2.setLinearVelocity =
      some ⟨0, PLAYER_INITIAL_JUMP_VELOCITY⟩ ∧
    (movePlayer demoStandingState demoGroundTickHeld).1.isJumping = true ∧
    (movePlayer demoStandingState demoGroundTickHeld).1.coyoteTimer = 0 ∧
    (movePlayer demoStandingState demoGroundTickHeld).1.jumpBufferTimer = 0 ∧
    (movePlayer demoStandingState demoGroundTickHeld).1.isGrounded = false ∧
    launchesF32 demoStandingState demoGroundTickHeld = true ∧
    (movePlayerF32 demoStandingState demoGroundTickHeld).2.setLinearVelocity =
      some ⟨0, 8738133 / 524288⟩ := by
  have hg : groundCheck demoStandingState demoGroundTickHeld = true := by
    simp [groundCheck, groundCheckSuppressed, demoGroundTickHeld, demoGroundTick, demoAirTick,
      contactScan, demoStandingContact, objectScan, B2_ID_EQUALS, demoPlayerId, demoPlatformId,
      demoPlayerObject, demoPlatform, demoStandingState]
    norm_num
  have hl : launches demoStandingState demoGroundTickHeld = true := by
    rw [launches_iff]
    exact Or.inr ⟨⟨rfl, rfl⟩, Or.inl hg⟩
  have hl2 : launchesF32 demoStandingState demoGroundTickHeld = true := by
    have hp : jumpKeyJustPressed demoStandingState demoGroundTickHeld = true := rfl
    simp only [launchesF32, hp, hg, Bool.true_or, Bool.and_self, Bool.or_true]
  have hall := C2_launch_effects demoStandingState demoGroundTickHeld (by decide)
  obtain ⟨h1, -, h3, h4, h5, h6⟩ := hall.1 hl
  obtain ⟨g1, -, g3, -⟩ := hall.2.2.1 hl2
  refine ⟨hl, h1, h3, h4, h5, h6, hl2, ?_⟩
  rw [g1, g3]
  rfl

/-! ## Gravity scaling -/

theorem currentGravityScale_eq_rules (isJumping isGrounded : Bool) (velY : ℚ)
    (jumpKeyHeld : Bool) :
    currentGravityScale isJumping isGrounded velY jumpKeyHeld =
      gravityScaleRules isJumping isGrounded velY jumpKeyHeld PLAYER_BASE_GRAVITY_SCALE
        PLAYER_JUMP_CUT_GRAVITY_FACTOR PLAYER_FALL_GRAVITY_FACTOR := by
  unfold currentGravityScale gravityScaleRules
  cases isJumping <;> cases isGrounded <;> cases jumpKeyHeld <;>
    by_cases h1 : velY > 1 / 100 <;> by_cases h2 : velY < -(1 / 100) <;> simp [h1, h2]

theorem gravityScaleRules_mem (isJumping isGrounded : Bool) (velY : ℚ) (jumpKeyHeld : Bool)
    (base jumpCut fall : ℚ) :
    gravityScaleRules isJumping isGrounded velY jumpKeyHeld base jumpCut fall = base ∨
    gravityScaleRules isJumping isGrounded velY jumpKeyHeld base jumpCut fall = base * jumpCut ∨
    gravityScaleRules isJumping isGrounded velY jumpKeyHeld base jumpCut fall = base * fall := by
  unfold gravityScaleRules
  split_ifs <;> simp

theorem movePlayer_setGravityScale (s : PlayerState) (inp : TickInput)
    (h : B2_IS_NULL inp.playerBodyId = false) :
    (movePlayer s inp).2.setGravityScale =
      some (currentGravityScale (movePlayer s inp).1.isJumping (movePlayer s inp).1.isGrounded
        inp.playerVel.y inp.jumpKeyHeld) := by
  simp [movePlayer, h]

/-- C3: for every combination of isJumping, isGrounded, vertical velocity and
jumpKeyHeld, the gravity scale the code computes (jump/fall branch first, then
the override to base when grounded and not jumping) equals the value of the
specification's five rules in priority order; it is one of base, base * jumpCut,
base * fall, and it is strictly positive. On every tick with a valid player
body this is the scale passed to `b2Body_SetGravityScale`, evaluated at the
flags the tick leaves in the state. -/
theorem C3_gravity_scale (isJumping isGrounded : Bool) (velY : ℚ) (jumpKeyHeld : Bool)
    (s : PlayerState) (inp : TickInput) (h : B2_IS_NULL inp.playerBodyId = false) :
    currentGravityScale isJumping isGrounded velY jumpKeyHeld =
      gravityScaleRules isJumping isGrounded velY jumpKeyHeld PLAYER_BASE_GRAVITY_SCALE
        PLAYER_JUMP_CUT_GRAVITY_FACTOR PLAYER_FALL_GRAVITY_FACTOR ∧
    (currentGravityScale isJumping isGrounded velY jumpKeyHeld = PLAYER_BASE_GRAVITY_SCALE ∨
      currentGravityScale isJumping isGrounded velY jumpKeyHeld =
        PLAYER_BASE_GRAVITY_SCALE * PLAYER_JUMP_CUT_GRAVITY_FACTOR ∨
      currentGravityScale isJumping isGrounded velY jumpKeyHeld =
        PLAYER_BASE_GRAVITY_SCALE * PLAYER_FALL_GRAVITY_FACTOR) ∧
    0 < currentGravityScale isJumping isGrounded velY jumpKeyHeld ∧
    (movePlayer s inp).2.setGravityScale =
      some (gravityScaleRules (movePlayer s inp).1.isJumping (movePlayer s inp).1.isGrounded
        inp.playerVel.y inp.jumpKeyHeld PLAYER_BASE_GRAVITY_SCALE
        PLAYER_JUMP_CUT_GRAVITY_FACTOR PLAYER_FALL_GRAVITY_FACTOR) := by
  have hmem := gravityScaleRules_mem isJumping isGrounded velY jumpKeyHeld
    PLAYER_BASE_GRAVITY_SCALE PLAYER_JUMP_CUT_GRAVITY_FACTOR PLAYER_FALL_GRAVITY_FACTOR
  rw [movePlayer_setGravityScale s inp h, currentGravityScale_eq_rules,
    currentGravityScale_eq_rules]
  refine ⟨rfl, hmem, ?_, rfl⟩
  have hb := base_gravity_scale_eq
  rcases hmem with e | e | e <;> rw [e, hb] <;>
    norm_num [PLAYER_JUMP_CUT_GRAVITY_FACTOR, PLAYER_FALL_GRAVITY_FACTOR]

/-- C3 at a concrete tick: falling at 2 units per second, not grounded, the
scale is base * fall. -/
theorem C3_gravity_scale_witness :
    B2_IS_NULL demoAirTick.playerBodyId = false ∧
    currentGravityScale false false (-2) false =
      gravityScaleRules false false (-2) false PLAYER_BASE_GRAVITY_SCALE
        PLAYER_JUMP_CUT_GRAVITY_FACTOR PLAYER_FALL_GRAVITY_FACTOR :=
  ⟨by decide,
   (C3_gravity_scale false false (-2) false demoStandingState demoAirTick (by decide)).1⟩

/-! ## Ground contact resolver -/

theorem B2_ID_EQUALS_iff (id1 id2 : b2BodyId) : B2_ID_EQUALS id1 id2 = true ↔ id1 = id2 := by
  cases id1
  cases id2
  simp [B2_ID_EQUALS, and_assoc]

theorem B2_ID_EQUALS_eq_decide (id1 id2 : b2BodyId) :
    B2_ID_EQUALS id1 id2 = decide (id1 = id2) := by
  rw [Bool.eq_iff_iff, B2_ID_EQUALS_iff]
  simp

theorem objectScan_iff (otherBodyId : b2BodyId) (supportingNormalY : ℚ)
    (objs : List GameObject) :
    objectScan otherBodyId supportingNormalY objs = true ↔
      ∃ g, objs.find? (fun o => decide (o.bodyId = otherBodyId)) = some g ∧
        g.canJumpOn = true ∧ supportingNormalY > 7 / 10 := by
  induction objs with
  | nil => simp [objectScan]
  | cons o rest ih =>
    unfold objectScan
    rw [B2_ID_EQUALS_eq_decide]
    by_cases he : o.bodyId = otherBodyId
    · simp [he, List.find?_cons]
    · have he2 : ¬ otherBodyId = o.bodyId := fun hh => he hh.symm
      simp [he, he2, List.find?_cons, ih]

theorem contactScan_iff (playerBodyId : b2BodyId) (objs : List GameObject)
    (cs : List b2ContactData) :
    contactScan playerBodyId objs cs = true ↔
      ∃ c ∈ cs, c.pointCount > 0 ∧
        ((c.bodyA = playerBodyId ∧
            ∃ g, objs.find? (fun o => decide (o.bodyId = c.bodyB)) = some g ∧
              g.canJumpOn = true ∧ -c.normalY > 7 / 10) ∨
         (c.bodyA ≠ playerBodyId ∧ c.bodyB = playerBodyId ∧
            ∃ g, objs.find? (fun o => decide (o.bodyId = c.bodyA)) = some g ∧
              g.canJumpOn = true ∧ c.normalY > 7 / 10)) := by
  induction cs with
  | nil => simp [contactScan]
  | cons c rest ih =>
    unfold contactScan
    rw [List.exists_mem_cons_iff, ← ih, ← objectScan_iff, ← objectScan_iff,
      B2_ID_EQUALS_eq_decide, B2_ID_EQUALS_eq_decide]
    by_cases hp : c.pointCount > 0 <;> by_cases hA : c.bodyA = playerBodyId <;>
      by_cases hB : c.bodyB = playerBodyId <;>
      cases hoA : objectScan c.bodyA c.normalY objs <;>
      cases hoB : objectScan c.bodyB (-c.normalY) objs <;>
      simp [hp, hA, hB, hoA, hoB]

theorem contactScan_perm (playerBodyId : b2BodyId) (objs : List GameObject)
    (cs cs2 : List b2ContactData) (hperm : cs.Perm cs2) :
    contactScan playerBodyId objs cs = contactScan playerBodyId objs cs2 := by
  rw [Bool.eq_iff_iff, contactScan_iff, contactScan_iff]
  constructor
  · rintro ⟨c, hc, h⟩
    exact ⟨c, hperm.mem_iff.1 hc, h⟩
  · rintro ⟨c, hc, h⟩
    exact ⟨c, hperm.mem_iff.2 hc, h⟩

/-- C4: the resolved grounded flag of a tick is true if and only if the
suppression condition (not grounded at the end of the previous tick, vy > 0.01,
jump key held) does not hold and some contact among the first 10 reported has
pointCount > 0, has the player as one of its two bodies (body A is tested
first, so the case "player is body B" is the one where body A is not the
player), and the first game object in allGameObjects carrying the other body's
id has canJumpOn = true, with the sign-corrected normal y (negated when the
player is body A, as is when the player is body B) strictly above 0.7. An empty
contact list gives false, and reordering the sampled contacts does not change
the result. -/
theorem C4_ground_check (s : PlayerState) (inp : TickInput) :
    (groundCheck s inp = true ↔
      ¬ (s.isGrounded = false ∧ inp.playerVel.y > 1 / 100 ∧ inp.jumpKeyHeld = true) ∧
      ∃ c ∈ inp.contacts.take 10, c.pointCount > 0 ∧
        ((c.bodyA = inp.playerBodyId ∧
            ∃ g, inp.allGameObjects.find? (fun o => decide (o.bodyId = c.bodyB)) = some g ∧
              g.canJumpOn = true ∧ -c.normalY > 7 / 10) ∨
         (c.bodyA ≠ inp.playerBodyId ∧ c.bodyB = inp.playerBodyId ∧
            ∃ g, inp.allGameObjects.find? (fun o => decide (o.bodyId = c.bodyA)) = some g ∧
              g.canJumpOn = true ∧ c.normalY > 7 / 10))) ∧
    (inp.contacts = [] → groundCheck s inp = false) ∧
    (∀ cs : List b2ContactData, (cs.take 10).Perm (inp.contacts.take 10) →
      groundCheck s { inp with contacts := cs } = groundCheck s inp) := by
  refine ⟨?_, ?_, ?_⟩
  · rw [← contactScan_iff]
    unfold groundCheck groundCheckSuppressed
    cases s.isGrounded <;> cases inp.jumpKeyHeld <;>
      by_cases hv : inp.playerVel.y > 1 / 100 <;> simp [hv]
  · intro he
    simp [groundCheck, he, contactScan]
  · intro cs hperm
    unfold groundCheck groundCheckSuppressed
    simp only
    rw [contactScan_perm _ _ _ _ hperm]

/-! ## Jump buffering -/

theorem launches_false_of_airborne (s : PlayerState) (inp : TickInput)
    (hg : groundCheck s inp = false) (hp : jumpKeyJustPressed s inp = false) :
    launches s inp = false := by
  simp [launches, tryJumpFromBuffer, justLanded, hg, hp]

theorem roundF32_abs_sub_le_of_lt (x : ℚ) (k : ℤ) (hk : -125 ≤ k) (h0 : 0 < |x|)
    (h : |x| < 2 ^ k) : |roundF32 x - x| ≤ 2 ^ (k - 25) := by
  have hlog : Int.log 2 |x| < k :=
    (Int.lt_zpow_iff_log_lt (by norm_num) h0).1 (by exact_mod_cast h)
  have he : f32Exponent x - 23 ≤ k - 24 := by
    unfold f32Exponent
    have : max (Int.log 2 |x|) (-126) ≤ k - 1 := max_le (by omega) (by omega)
    omega
  have hu : f32Ulp x ≤ 2 ^ (k - 24) := by
    unfold f32Ulp
    exact zpow_le_zpow_right₀ (by norm_num) he
  have e2 : (2 : ℚ) ^ (k - 24) / 2 = 2 ^ (k - 25) := by
    rw [show k - 24 = (k - 25) + 1 by ring, zpow_add_one₀ (by norm_num : (2 : ℚ) ≠ 0)]
    ring
  calc |roundF32 x - x| ≤ f32Ulp x / 2 := roundF32_abs_sub_le x
    _ ≤ 2 ^ (k - 24) / 2 := div_le_div_of_nonneg_right hu (by norm_num)
    _ = 2 ^ (k - 25) := e2

theorem roundF32_le_tenth (y : ℚ) (h0 : 0 < y) (h : y ≤ F32_0_1) : roundF32 y ≤ F32_0_1 := by
  have hB : F32_0_1 = 13421773 * 2 ^ (-27 : ℤ) := by norm_num [F32_0_1]
  by_cases hy : (2 : ℚ) ^ (-4 : ℤ) ≤ y
  · have habs : |y| = y := abs_of_pos h0
    have he : f32Exponent y = -4 := by
      apply f32Exponent_eq y (-4) (by norm_num)
      · rw [habs]; exact hy
      · rw [habs]
        have : F32_0_1 < 2 ^ ((-4 : ℤ) + 1) := by norm_num [F32_0_1]
        linarith
    have hz : y / 2 ^ (-27 : ℤ) ≤ 13421773 := by
      rw [div_le_iff₀ (by positivity)]
      rw [← hB]
      exact h
    have hr := roundNearestEven_abs_sub_le (y / 2 ^ (-27 : ℤ))
    rw [abs_le] at hr
    have hlt : ((roundNearestEven (y / 2 ^ (-27 : ℤ)) : ℤ) : ℚ) < ((13421773 + 1 : ℤ) : ℚ) := by
      push_cast
      linarith
    have hle : roundNearestEven (y / 2 ^ (-27 : ℤ)) ≤ 13421773 := by
      have : roundNearestEven (y / 2 ^ (-27 : ℤ)) < 13421773 + 1 := by exact_mod_cast hlt
      omega
    have hleq : ((roundNearestEven (y / 2 ^ (-27 : ℤ)) : ℤ) : ℚ) ≤ 13421773 := by
      exact_mod_cast hle
    unfold roundF32 f32Ulp
    rw [he, hB]
    have e27 : ((-4 : ℤ) - 23) = -27 := by norm_num
    rw [e27]
    exact mul_le_mul_of_nonneg_right hleq (by positivity)
  · push_neg at hy
    have habs : |y| = y := abs_of_pos h0
    have herr := roundF32_abs_sub_le_of_lt y (-4) (by norm_num) (by rw [habs]; exact h0)
      (by rw [habs]; exact hy)
    rw [abs_le] at herr
    have h29 : (2 : ℚ) ^ ((-4 : ℤ) - 25) = 1 / 536870912 := by norm_num
    have h4 : (2 : ℚ) ^ (-4 : ℤ) = 1 / 16 := by norm_num
    rw [h29] at herr
    rw [h4] at hy
    have : (1 : ℚ) / 16 + 1 / 536870912 ≤ F32_0_1 := by norm_num [F32_0_1]
    linarith [herr.2]

/-! ### Runs of the binary32 call -/

theorem launchesF32_false_of_airborne (s : PlayerState) (inp : TickInput)
    (hg : groundCheck s inp = false) (hp : jumpKeyJustPressed s inp = false) :
    launchesF32 s inp = false := by
  simp [launchesF32, justLanded, hg, hp]

theorem f32Countdown_append (t : ℚ) (dts : List ℚ) (dt : ℚ) :
    f32Countdown t (dts ++ [dt]) = max 0 (roundF32 (f32Countdown t dts - dt)) := by
  induction dts generalizing t with
  | nil => simp [f32Countdown]
  | cons d rest ih =>
    rw [List.cons_append]
    simp only [f32Countdown]
    exact ih _

theorem airborne_run_F32 (s : PlayerState) (inps : List TickInput)
    (hs : s.isGrounded = false) (h : staysAirborneNoPressF32 s inps = true) :
    (runTicksF32 s inps).isGrounded = false ∧
    (runTicksF32 s inps).jumpBufferTimer =
      f32Countdown s.jumpBufferTimer (inps.map TickInput.dt) ∧
    (∀ dt ∈ inps.map TickInput.dt, 0 ≤ dt) := by
  induction inps generalizing s with
  | nil => simp [runTicksF32, f32Countdown, hs]
  | cons inp rest ih =>
    simp only [staysAirborneNoPressF32, Bool.and_eq_true, decide_eq_true_eq,
      Bool.not_eq_true'] at h
    obtain ⟨⟨⟨⟨hn, hdt⟩, hg⟩, hp⟩, hrest⟩ := h
    have hl := launchesF32_false_of_airborne s inp hg hp
    have hst := movePlayerF32_state s inp hn
    have h1 : (movePlayerF32 s inp).1.isGrounded = false := by rw [hst]; simp [hl, hg]
    have h2 : (movePlayerF32 s inp).1.jumpBufferTimer =
        max 0 (roundF32 (s.jumpBufferTimer - inp.dt)) := by
      rw [hst]; simp [hl, jumpBufferTimerUpdatedF32, hp]
    obtain ⟨i1, i2, i3⟩ := ih (movePlayerF32 s inp).1 h1 hrest
    refine ⟨i1, ?_, ?_⟩
    · simp only [runTicksF32, List.map_cons, f32Countdown]
      rw [i2, h2]
    · intro dt hmem
      simp only [List.map_cons, List.mem_cons] at hmem
      rcases hmem with e | e
      · rw [e]; exact hdt
      · exact i3 dt e

theorem buffered_landing_F32 (s0 : PlayerState) (press : TickInput)
    (mids : List TickInput) (landing : TickInput)
    (hpn : B2_IS_NULL press.playerBodyId = false)
    (hpp : jumpKeyJustPressed s0 press = true)
    (hpg : groundCheck s0 press = false)
    (hpl : launchesF32 s0 press = false)
    (hmid : staysAirborneNoPressF32 (movePlayerF32 s0 press).1 mids = true)
    (hln : B2_IS_NULL landing.playerBodyId = false)
    (hlg : groundCheck (runTicksF32 (movePlayerF32 s0 press).1 mids) landing = true)
    (hlp : jumpKeyJustPressed (runTicksF32 (movePlayerF32 s0 press).1 mids) landing = false) :
    (movePlayerF32 (runTicksF32 (movePlayerF32 s0 press).1 mids)
        landing).2.setLinearVelocity.isSome = true ↔
      0 < f32Countdown PLAYER_JUMP_BUFFER_TIME_F32 (mids.map TickInput.dt ++ [landing.dt]) := by
  have hst := movePlayerF32_state s0 press hpn
  have h1 : (movePlayerF32 s0 press).1.isGrounded = false := by rw [hst]; simp [hpl, hpg]
  have h2 : (movePlayerF32 s0 press).1.jumpBufferTimer = PLAYER_JUMP_BUFFER_TIME_F32 := by
    rw [hst]; simp [hpl, jumpBufferTimerUpdatedF32, hpp]
  obtain ⟨hg, hb, -⟩ := airborne_run_F32 (movePlayerF32 s0 press).1 mids h1 hmid
  rw [movePlayerF32_setLinearVelocity _ _ hln, f32Countdown_append, ← h2, ← hb]
  have hj : jumpBufferTimerUpdatedF32 (runTicksF32 (movePlayerF32 s0 press).1 mids) landing =
      max 0 (roundF32 ((runTicksF32 (movePlayerF32 s0 press).1 mids).jumpBufferTimer
        - landing.dt)) := by
    simp only [jumpBufferTimerUpdatedF32, hlp, Bool.false_eq_true, if_false]
  have hl : launchesF32 (runTicksF32 (movePlayerF32 s0 press).1 mids) landing =
      decide (jumpBufferTimerUpdatedF32 (runTicksF32 (movePlayerF32 s0 press).1 mids) landing
        > 0) := by
    simp [launchesF32, justLanded, hlg, hg, hlp]
  rw [hl, hj]
  by_cases hpos : 0 < max 0 (roundF32
      ((runTicksF32 (movePlayerF32 s0 press).1 mids).jumpBufferTimer - landing.dt))
  · simp [hpos]
  · simp [hpos]

theorem f32Countdown_zero (dts : List ℚ) (h : ∀ dt ∈ dts, 0 ≤ dt) : f32Countdown 0 dts = 0 := by
  induction dts with
  | nil => rfl
  | cons d rest ih =>
    have hd : 0 ≤ d := h d (List.mem_cons_self _ _)
    have hr : roundF32 (0 - d) ≤ 0 := roundF32_nonpos _ (by linarith)
    simp only [f32Countdown]
    rw [max_eq_left hr]
    exact ih (fun dt hdt => h dt (List.mem_cons_of_mem _ hdt))

theorem f32Countdown_step_range (t dt : ℚ) (ht : t ≤ F32_0_1) (hd : 0 ≤ dt) :
    0 ≤ max 0 (roundF32 (t - dt)) ∧ max 0 (roundF32 (t - dt)) ≤ F32_0_1 := by
  refine ⟨le_max_left _ _, max_le (by norm_num [F32_0_1]) ?_⟩
  by_cases hy : 0 < t - dt
  · exact roundF32_le_tenth _ hy (by linarith)
  · push_neg at hy
    exact le_trans (roundF32_nonpos _ hy) (by norm_num [F32_0_1])

theorem f32Countdown_step_err (t dt : ℚ) (ht : t ≤ F32_0_1) (hd : 0 ≤ dt)
    (hy : 0 < t - dt) : |roundF32 (t - dt) - (t - dt)| ≤ 1 / 268435456 := by
  have hlt : t - dt < 2 ^ (-3 : ℤ) := by
    have : F32_0_1 < 2 ^ (-3 : ℤ) := by norm_num [F32_0_1]
    linarith
  have h := roundF32_abs_sub_le_small (t - dt) hy hlt
  have e : (2 : ℚ) ^ (-28 : ℤ) = 1 / 268435456 := by norm_num
  rw [e] at h
  exact h

theorem f32Countdown_lower (t : ℚ) (dts : List ℚ) (ht0 : 0 ≤ t) (ht : t ≤ F32_0_1)
    (h : ∀ dt ∈ dts, 0 ≤ dt) :
    t - dts.sum - dts.length * (1 / 268435456) ≤ f32Countdown t dts := by
  induction dts generalizing t with
  | nil => simp [f32Countdown]
  | cons d rest ih =>
    have hd : 0 ≤ d := h d (List.mem_cons_self _ _)
    obtain ⟨r0, r1⟩ := f32Countdown_step_range t d ht hd
    have hi := ih (max 0 (roundF32 (t - d))) r0 r1
      (fun dt hdt => h dt (List.mem_cons_of_mem _ hdt))
    have hstep : t - d - 1 / 268435456 ≤ max 0 (roundF32 (t - d)) := by
      by_cases hy : 0 < t - d
      · have herr := f32Countdown_step_err t d ht hd hy
        rw [abs_le] at herr
        exact le_trans (by linarith [herr.1]) (le_max_right _ _)
      · push_neg at hy
        exact le_trans (by linarith) (le_max_left _ _)
    simp only [f32Countdown, List.sum_cons, List.length_cons]
    push_cast
    linarith

theorem f32Countdown_upper (t : ℚ) (dts : List ℚ) (ht0 : 0 ≤ t) (ht : t ≤ F32_0_1)
    (h : ∀ dt ∈ dts, 0 ≤ dt) :
    f32Countdown t dts ≤ max 0 (t - dts.sum + dts.length * (1 / 268435456)) := by
  induction dts generalizing t with
  | nil => simp [f32Countdown, ht0]
  | cons d rest ih =>
    have hd : 0 ≤ d := h d (List.mem_cons_self _ _)
    have hrest : ∀ dt ∈ rest, 0 ≤ dt := fun dt hdt => h dt (List.mem_cons_of_mem _ hdt)
    simp only [f32Countdown, List.sum_cons, List.length_cons]
    by_cases hy : 0 < t - d
    · obtain ⟨r0, r1⟩ := f32Countdown_step_range t d ht hd
      have hi := ih (max 0 (roundF32 (t - d))) r0 r1 hrest
      have herr := f32Countdown_step_err t d ht hd hy
      rw [abs_le] at herr
      have hnn : 0 ≤ roundF32 (t - d) := roundF32_nonneg _ (le_of_lt hy)
      rw [max_eq_right hnn] at hi ⊢
      refine le_trans hi (max_le_max (le_refl _) ?_)
      push_cast
      linarith [herr.2]
    · push_neg at hy
      rw [max_eq_left (roundF32_nonpos _ hy), f32Countdown_zero rest hrest]
      exact le_max_left _ _

theorem f32Countdown_sixty :
    f32Countdown F32_0_1 [F32_1_60, F32_1_60, F32_1_60, F32_1_60, F32_1_60, F32_1_60]
      = 1 / 268435456 := by
  have h1 : roundF32 (F32_0_1 - F32_1_60) = 11184811 / 134217728 := by
    have hx : F32_0_1 - F32_1_60 = 44739243 / 536870912 := by norm_num [F32_0_1, F32_1_60]
    rw [hx, roundF32_eq_of_close (44739243 / 536870912) (-4) (11184811) (by norm_num)
      (by norm_num [abs_of_pos]) (by norm_num [abs_of_pos]) (by norm_num [abs_lt])]
    norm_num
  have p1 : (0 : ℚ) ≤ 11184811 / 134217728 := by norm_num
  have h2 : roundF32 (11184811 / 134217728 - F32_1_60) = 8947849 / 134217728 := by
    have hx : 11184811 / 134217728 - F32_1_60 = 35791395 / 536870912 := by norm_num [F32_0_1, F32_1_60]
    rw [hx, roundF32_eq_of_close (35791395 / 536870912) (-4) (8947849) (by norm_num)
      (by norm_num [abs_of_pos]) (by norm_num [abs_of_pos]) (by norm_num [abs_lt])]
    norm_num
  have p2 : (0 : ℚ) ≤ 8947849 / 134217728 := by norm_num
  have h3 : roundF32 (8947849 / 134217728 - F32_1_60) = 6710887 / 134217728 := by
    have hx : 8947849 / 134217728 - F32_1_60 = 26843547 / 536870912 := by norm_num [F32_0_1, F32_1_60]
    rw [hx, roundF32_eq_of_tie (26843547 / 536870912) (-5) (13421774) (by norm_num)
      (by norm_num [abs_of_pos]) (by norm_num [abs_of_pos]) (by decide) (Or.inr (by norm_num))]
    norm_num
  have p3 : (0 : ℚ) ≤ 6710887 / 134217728 := by norm_num
  have h4 : roundF32 (6710887 / 134217728 - F32_1_60) = 4473925 / 134217728 := by
    have hx : 6710887 / 134217728 - F32_1_60 = 17895699 / 536870912 := by norm_num [F32_0_1, F32_1_60]
    rw [hx, roundF32_eq_of_tie (17895699 / 536870912) (-5) (8947850) (by norm_num)
      (by norm_num [abs_of_pos]) (by norm_num [abs_of_pos]) (by decide) (Or.inr (by norm_num))]
    norm_num
  have p4 : (0 : ℚ) ≤ 4473925 / 134217728 := by norm_num
  have h5 : roundF32 (4473925 / 134217728 - F32_1_60) = 8947851 / 536870912 := by
    have hx : 4473925 / 134217728 - F32_1_60 = 8947851 / 536870912 := by norm_num [F32_0_1, F32_1_60]
    rw [hx, roundF32_eq_of_close (8947851 / 536870912) (-6) (8947851) (by norm_num)
      (by norm_num [abs_of_pos]) (by norm_num [abs_of_pos]) (by norm_num [abs_lt])]
    norm_num
  have p5 : (0 : ℚ) ≤ 8947851 / 536870912 := by norm_num
  have h6 : roundF32 (8947851 / 536870912 - F32_1_60) = 1 / 268435456 := by
    have hx : 8947851 / 536870912 - F32_1_60 = 1 / 268435456 := by norm_num [F32_0_1, F32_1_60]
    rw [hx, roundF32_eq_of_close (1 / 268435456) (-28) (8388608) (by norm_num)
      (by norm_num [abs_of_pos]) (by norm_num [abs_of_pos]) (by norm_num [abs_lt])]
    norm_num
  have p6 : (0 : ℚ) ≤ 1 / 268435456 := by norm_num
  simp only [f32Countdown]
  rw [h1, max_eq_right p1, h2, max_eq_right p2, h3, max_eq_right p3, h4, max_eq_right p4, h5, max_eq_right p5, h6, max_eq_right p6]

theorem f32Countdown_sixty_five :
    f32Countdown F32_0_1 [F32_1_60, F32_1_60, F32_1_60, F32_1_60, F32_1_60]
      = 8947851 / 536870912 := by
  have h1 : roundF32 (F32_0_1 - F32_1_60) = 11184811 / 134217728 := by
    have hx : F32_0_1 - F32_1_60 = 44739243 / 536870912 := by norm_num [F32_0_1, F32_1_60]
    rw [hx, roundF32_eq_of_close (44739243 / 536870912) (-4) (11184811) (by norm_num)
      (by norm_num [abs_of_pos]) (by norm_num [abs_of_pos]) (by norm_num [abs_lt])]
    norm_num
  have p1 : (0 : ℚ) ≤ 11184811 / 134217728 := by norm_num
  have h2 : roundF32 (11184811 / 134217728 - F32_1_60) = 8947849 / 134217728 := by
    have hx : 11184811 / 134217728 - F32_1_60 = 35791395 / 536870912 := by norm_num [F32_0_1, F32_1_60]
    rw [hx, roundF32_eq_of_close (35791395 / 536870912) (-4) (8947849) (by norm_num)
      (by norm_num [abs_of_pos]) (by norm_num [abs_of_pos]) (by norm_num [abs_lt])]
    norm_num
  have p2 : (0 : ℚ) ≤ 8947849 / 134217728 := by norm_num
  have h3 : roundF32 (8947849 / 134217728 - F32_1_60) = 6710887 / 134217728 := by
    have hx : 8947849 / 134217728 - F32_1_60 = 26843547 / 536870912 := by norm_num [F32_0_1, F32_1_60]
    rw [hx, roundF32_eq_of_tie (26843547 / 536870912) (-5) (13421774) (by norm_num)
      (by norm_num [abs_of_pos]) (by norm_num [abs_of_pos]) (by decide) (Or.inr (by norm_num))]
    norm_num
  have p3 : (0 : ℚ) ≤ 6710887 / 134217728 := by norm_num
  have h4 : roundF32 (6710887 / 134217728 - F32_1_60) = 4473925 / 134217728 := by
    have hx : 6710887 / 134217728 - F32_1_60 = 17895699 / 536870912 := by norm_num [F32_0_1, F32_1_60]
    rw [hx, roundF32_eq_of_tie (17895699 / 536870912) (-5) (8947850) (by norm_num)
      (by norm_num [abs_of_pos]) (by norm_num [abs_of_pos]) (by decide) (Or.inr (by norm_num))]
    norm_num
  have p4 : (0 : ℚ) ≤ 4473925 / 134217728 := by norm_num
  have h5 : roundF32 (4473925 / 134217728 - F32_1_60) = 8947851 / 536870912 := by
    have hx : 4473925 / 134217728 - F32_1_60 = 8947851 / 536870912 := by norm_num [F32_0_1, F32_1_60]
    rw [hx, roundF32_eq_of_close (8947851 / 536870912) (-6) (8947851) (by norm_num)
      (by norm_num [abs_of_pos]) (by norm_num [abs_of_pos]) (by norm_num [abs_lt])]
    norm_num
  have p5 : (0 : ℚ) ≤ 8947851 / 536870912 := by norm_num
  simp only [f32Countdown]
  rw [h1, max_eq_right p1, h2, max_eq_right p2, h3, max_eq_right p3, h4, max_eq_right p4, h5, max_eq_right p5]

theorem groundCheck_demoAirTickHeldF32 (s : PlayerState) :
    groundCheck s demoAirTickHeldF32 = false := by
  simp [groundCheck, groundCheckSuppressed, demoAirTickHeldF32, demoAirTickHeld, demoAirTick,
    contactScan]

theorem groundCheck_demoGroundTickHeldF32 (s : PlayerState) :
    groundCheck s demoGroundTickHeldF32 = true := by
  simp [groundCheck, groundCheckSuppressed, demoGroundTickHeldF32, demoGroundTickHeld,
    demoGroundTick, demoAirTick, contactScan, demoStandingContact, objectScan, B2_ID_EQUALS,
    demoPlayerId, demoPlatformId, demoPlayerObject, demoPlatform]
  norm_num

theorem launchesF32_initial_press : launchesF32 initialStateF32 demoAirTickHeldF32 = false := by
  have hc : coyoteTimerUpdatedF32 initialStateF32 demoAirTickHeldF32 = 0 := by
    simp only [coyoteTimerUpdatedF32, groundCheck_demoAirTickHeldF32, Bool.false_eq_true,
      if_false]
    apply max_eq_left
    apply roundF32_nonpos
    norm_num [initialStateF32, initialState, PLAYER_COYOTE_TIME, demoAirTickHeldF32,
      demoAirTickHeld, demoAirTick, F32_1_60]
  simp [launchesF32, justLanded, groundCheck_demoAirTickHeldF32, hc]

theorem held_airborne_run_F32 (s : PlayerState) (n : ℕ) (hprev : s.previousJumpKeyHeld = true) :
    staysAirborneNoPressF32 s (List.replicate n demoAirTickHeldF32) = true ∧
    (runTicksF32 s (List.replicate n demoAirTickHeldF32)).previousJumpKeyHeld = true := by
  induction n generalizing s with
  | zero => exact ⟨rfl, hprev⟩
  | succ n ih =>
    have hn : B2_IS_NULL demoAirTickHeldF32.playerBodyId = false := by decide
    have hnext : (movePlayerF32 s demoAirTickHeldF32).1.previousJumpKeyHeld = true := by
      rw [movePlayerF32_state s _ hn]
      rfl
    obtain ⟨i1, i2⟩ := ih _ hnext
    have hdt : (0 : ℚ) ≤ demoAirTickHeldF32.dt := by
      norm_num [demoAirTickHeldF32, F32_1_60]
    refine ⟨?_, ?_⟩
    · simp only [List.replicate, staysAirborneNoPressF32, hn, groundCheck_demoAirTickHeldF32,
        jumpKeyJustPressed, hprev, i1, hdt]
      rfl
    · simp only [List.replicate, runTicksF32]
      exact i2

/-- C5 as stated fails at 60 Hz in the code's binary32 arithmetic. From the
initial state, with dt the binary32 value of 1/60 on every tick: the jump key is
freshly pressed on an airborne tick (no launch), held for five more airborne
ticks, and the sixth tick after the press lands. The sum of the six dt values
is 26843547/268435456, which is not below 0.1, yet the landing tick launches:
the timer, decremented with rounding, is 2^-28 > 0 there. -/
theorem C5_counterexample :
    B2_IS_NULL demoAirTickHeldF32.playerBodyId = false ∧
    jumpKeyJustPressed initialStateF32 demoAirTickHeldF32 = true ∧
    groundCheck initialStateF32 demoAirTickHeldF32 = false ∧
    launchesF32 initialStateF32 demoAirTickHeldF32 = false ∧
    staysAirborneNoPressF32 (movePlayerF32 initialStateF32 demoAirTickHeldF32).1
      (List.replicate 5 demoAirTickHeldF32) = true ∧
    groundCheck (runTicksF32 (movePlayerF32 initialStateF32 demoAirTickHeldF32).1
      (List.replicate 5 demoAirTickHeldF32)) demoGroundTickHeldF32 = true ∧
    jumpKeyJustPressed (runTicksF32 (movePlayerF32 initialStateF32 demoAirTickHeldF32).1
      (List.replicate 5 demoAirTickHeldF32)) demoGroundTickHeldF32 = false ∧
    ((List.replicate 5 demoAirTickHeldF32).map TickInput.dt).sum + demoGroundTickHeldF32.dt
      = 26843547 / 268435456 ∧
    ¬ (((List.replicate 5 demoAirTickHeldF32).map TickInput.dt).sum + demoGroundTickHeldF32.dt
      < 1 / 10) ∧
    (runTicksF32 (movePlayerF32 initialStateF32 demoAirTickHeldF32).1
      (List.replicate 5 demoAirTickHeldF32)).jumpBufferTimer = 8947851 / 536870912 ∧
    jumpBufferTimerUpdatedF32 (runTicksF32 (movePlayerF32 initialStateF32 demoAirTickHeldF32).1
      (List.replicate 5 demoAirTickHeldF32)) demoGroundTickHeldF32 = 1 / 268435456 ∧
    (movePlayerF32 (runTicksF32 (movePlayerF32 initialStateF32 demoAirTickHeldF32).1
      (List.replicate 5 demoAirTickHeldF32)) demoGroundTickHeldF32).2.setLinearVelocity.isSome
      = true := by
  have hn : B2_IS_NULL demoAirTickHeldF32.playerBodyId = false := by decide
  have hn2 : B2_IS_NULL demoGroundTickHeldF32.playerBodyId = false := by decide
  have hprev : (movePlayerF32 initialStateF32 demoAirTickHeldF32).1.previousJumpKeyHeld
      = true := by
    rw [movePlayerF32_state _ _ hn]
    rfl
  obtain ⟨hmid, hprev5⟩ := held_airborne_run_F32 _ 5 hprev
  have hlp : jumpKeyJustPressed (runTicksF32 (movePlayerF32 initialStateF32
      demoAirTickHeldF32).1 (List.replicate 5 demoAirTickHeldF32)) demoGroundTickHeldF32
      = false := by
    simp only [jumpKeyJustPressed, hprev5]
    rfl
  have hsum : ((List.replicate 5 demoAirTickHeldF32).map TickInput.dt).sum
      + demoGroundTickHeldF32.dt = 26843547 / 268435456 := by
    norm_num [List.replicate, demoAirTickHeldF32, demoGroundTickHeldF32, F32_1_60]
  have hst := movePlayerF32_state initialStateF32 demoAirTickHeldF32 hn
  have h1 : (movePlayerF32 initialStateF32 demoAirTickHeldF32).1.isGrounded = false := by
    rw [hst]
    simp only [launchesF32_initial_press, groundCheck_demoAirTickHeldF32, Bool.false_eq_true,
      if_false]
  have h2 : (movePlayerF32 initialStateF32 demoAirTickHeldF32).1.jumpBufferTimer
      = F32_0_1 := by
    rw [hst]
    simp only [launchesF32_initial_press, Bool.false_eq_true, if_false,
      jumpBufferTimerUpdatedF32]
    rfl
  obtain ⟨-, hb, -⟩ := airborne_run_F32 _ _ h1 hmid
  have h6 := f32Countdown_sixty
  have e : [F32_1_60, F32_1_60, F32_1_60, F32_1_60, F32_1_60, F32_1_60]
      = [F32_1_60, F32_1_60, F32_1_60, F32_1_60, F32_1_60] ++ [F32_1_60] := rfl
  have h5 : (runTicksF32 (movePlayerF32 initialStateF32 demoAirTickHeldF32).1
      (List.replicate 5 demoAirTickHeldF32)).jumpBufferTimer = 8947851 / 536870912 := by
    rw [hb, h2]
    exact f32Countdown_sixty_five
  have hj : jumpBufferTimerUpdatedF32 (runTicksF32 (movePlayerF32 initialStateF32
      demoAirTickHeldF32).1 (List.replicate 5 demoAirTickHeldF32)) demoGroundTickHeldF32
      = 1 / 268435456 := by
    simp only [jumpBufferTimerUpdatedF32, hlp, Bool.false_eq_true, if_false]
    rw [hb, h2]
    have h6b : f32Countdown F32_0_1
        (List.map TickInput.dt (List.replicate 5 demoAirTickHeldF32) ++
          [demoGroundTickHeldF32.dt]) = 1 / 268435456 := h6
    rw [f32Countdown_append] at h6b
    exact h6b
  refine ⟨hn, rfl, groundCheck_demoAirTickHeldF32 _, launchesF32_initial_press, hmid,
    groundCheck_demoGroundTickHeldF32 _, hlp, hsum, ?_, h5, hj, ?_⟩
  · rw [hsum]
    norm_num
  · rw [buffered_landing_F32 initialStateF32 demoAirTickHeldF32
      (List.replicate 5 demoAirTickHeldF32) demoGroundTickHeldF32 hn rfl
      (groundCheck_demoAirTickHeldF32 _) launchesF32_initial_press hmid hn2
      (groundCheck_demoGroundTickHeldF32 _) hlp]
    have h6b : f32Countdown PLAYER_JUMP_BUFFER_TIME_F32
        (List.map TickInput.dt (List.replicate 5 demoAirTickHeldF32) ++
          [demoGroundTickHeldF32.dt]) = 1 / 268435456 := h6
    rw [h6b]
    norm_num

/-- C5 (amended): jump buffering window in the code's binary32 arithmetic. From
any state, let the jump key be freshly pressed on a tick that resolves not
grounded and does not launch; let the character then stay not grounded for any
number of further ticks (dt >= 0) without a new fresh press; and let the next
tick (dt >= 0) resolve grounded without a fresh press. Then a launch occurs on
that landing tick if and only if the buffer timer, set to 0.1f on the press tick
and decremented on each later tick with the subtraction rounded to binary32, is
still positive on the landing tick. With n the number of ticks after the press
tick, the landing tick included, this is the case whenever the sum of their dt
values is below 0.1f - n * 2^-28, and it is not the case whenever the sum is at
least 0.1f + n * 2^-28; in between the outcome depends on the rounding. Here
0.1f is the binary32 value 13421773/134217728 of the buffer duration. -/
theorem C5_jump_buffer_window (s0 : PlayerState) (press : TickInput)
    (mids : List TickInput) (landing : TickInput)
    (hpn : B2_IS_NULL press.playerBodyId = false)
    (hpp : jumpKeyJustPressed s0 press = true)
    (hpg : groundCheck s0 press = false)
    (hpl : launchesF32 s0 press = false)
    (hmid : staysAirborneNoPressF32 (movePlayerF32 s0 press).1 mids = true)
    (hln : B2_IS_NULL landing.playerBodyId = false)
    (hldt : 0 ≤ landing.dt)
    (hlg : groundCheck (runTicksF32 (movePlayerF32 s0 press).1 mids) landing = true)
    (hlp : jumpKeyJustPressed (runTicksF32 (movePlayerF32 s0 press).1 mids) landing = false) :
    ((movePlayerF32 (runTicksF32 (movePlayerF32 s0 press).1 mids)
        landing).2.setLinearVelocity.isSome = true ↔
      0 < f32Countdown PLAYER_JUMP_BUFFER_TIME_F32
        (mids.map TickInput.dt ++ [landing.dt])) ∧
    ((mids.map TickInput.dt).sum + landing.dt + (mids.length + 1) * (1 / 268435456)
        < PLAYER_JUMP_BUFFER_TIME_F32 →
      (movePlayerF32 (runTicksF32 (movePlayerF32 s0 press).1 mids)
        landing).2.setLinearVelocity.isSome = true) ∧
    (PLAYER_JUMP_BUFFER_TIME_F32 + (mids.length + 1) * (1 / 268435456)
        ≤ (mids.map TickInput.dt).sum + landing.dt →
      (movePlayerF32 (runTicksF32 (movePlayerF32 s0 press).1 mids)
        landing).2.setLinearVelocity.isSome = false) ∧
    PLAYER_JUMP_BUFFER_TIME_F32 = 13421773 / 134217728 := by
  have hiff := buffered_landing_F32 s0 press mids landing hpn hpp hpg hpl hmid hln hlg hlp
  have hst := movePlayerF32_state s0 press hpn
  have h1 : (movePlayerF32 s0 press).1.isGrounded = false := by rw [hst]; simp [hpl, hpg]
  obtain ⟨-, -, hdts⟩ := airborne_run_F32 (movePlayerF32 s0 press).1 mids h1 hmid
  have hall : ∀ dt ∈ mids.map TickInput.dt ++ [landing.dt], 0 ≤ dt := by
    intro dt hmem
    rcases List.mem_append.1 hmem with e | e
    · exact hdts dt e
    · rw [List.mem_singleton.1 e]
      exact hldt
  have hsum : (mids.map TickInput.dt ++ [landing.dt]).sum
      = (mids.map TickInput.dt).sum + landing.dt := by
    simp
  have hlen : ((mids.map TickInput.dt ++ [landing.dt]).length : ℚ) = mids.length + 1 := by
    simp
  have hB0 : (0 : ℚ) ≤ F32_0_1 := by norm_num [F32_0_1]
  have hlow := f32Countdown_lower F32_0_1 _ hB0 (le_refl _) hall
  have hupp := f32Countdown_upper F32_0_1 _ hB0 (le_refl _) hall
  rw [hsum, hlen] at hlow hupp
  refine ⟨hiff, ?_, ?_, rfl⟩
  · intro h
    rw [hiff]
    have : (0 : ℚ) < F32_0_1 - ((mids.map TickInput.dt).sum + landing.dt)
        - (mids.length + 1) * (1 / 268435456) := by
      have h' : (mids.map TickInput.dt).sum + landing.dt + (mids.length + 1) * (1 / 268435456)
          < F32_0_1 := h
      linarith
    exact lt_of_lt_of_le this hlow
  · intro h
    have hle : f32Countdown PLAYER_JUMP_BUFFER_TIME_F32
        (mids.map TickInput.dt ++ [landing.dt]) ≤ 0 := by
      have h' : F32_0_1 + (mids.length + 1) * (1 / 268435456)
          ≤ (mids.map TickInput.dt).sum + landing.dt := h
      refine le_trans hupp (max_le (le_refl _) ?_)
      linarith
    cases hb : (movePlayerF32 (runTicksF32 (movePlayerF32 s0 press).1 mids)
        landing).2.setLinearVelocity.isSome
    · rfl
    · exact absurd (hiff.1 hb) (not_lt.2 hle)

/-- C5 (amended) at a concrete run at 60 Hz from the initial state: press in
the air, one more airborne tick, then landing on the second tick after the
press: the sum of the two dt values is far below 0.1f and the landing tick
launches. -/
theorem C5_jump_buffer_window_witness :
    staysAirborneNoPressF32 (movePlayerF32 initialStateF32 demoAirTickHeldF32).1
      (List.replicate 1 demoAirTickHeldF32) = true ∧
    (movePlayerF32 (runTicksF32 (movePlayerF32 initialStateF32 demoAirTickHeldF32).1
      (List.replicate 1 demoAirTickHeldF32)) demoGroundTickHeldF32).2.setLinearVelocity.isSome
      = true := by
  have hn : B2_IS_NULL demoAirTickHeldF32.playerBodyId = false := by decide
  have hn2 : B2_IS_NULL demoGroundTickHeldF32.playerBodyId = false := by decide
  have hprev : (movePlayerF32 initialStateF32 demoAirTickHeldF32).1.previousJumpKeyHeld
      = true := by
    rw [movePlayerF32_state _ _ hn]
    rfl
  obtain ⟨hmid, hprev1⟩ := held_airborne_run_F32 _ 1 hprev
  have hlp : jumpKeyJustPressed (runTicksF32 (movePlayerF32 initialStateF32
      demoAirTickHeldF32).1 (List.replicate 1 demoAirTickHeldF32)) demoGroundTickHeldF32
      = false := by
    simp only [jumpKeyJustPressed, hprev1]
    rfl
  refine ⟨hmid, (C5_jump_buffer_window initialStateF32 demoAirTickHeldF32
    (List.replicate 1 demoAirTickHeldF32) demoGroundTickHeldF32 hn rfl
    (groundCheck_demoAirTickHeldF32 _) launchesF32_initial_press hmid hn2 ?_
    (groundCheck_demoGroundTickHeldF32 _) hlp).2.1 ?_⟩
  · norm_num [demoGroundTickHeldF32, F32_1_60]
  · norm_num [List.replicate, demoAirTickHeldF32, demoGroundTickHeldF32, F32_1_60,
      PLAYER_JUMP_BUFFER_TIME_F32, F32_0_1]

/-! ## Coyote time -/

theorem coyoteTimerUpdated_zero (s : PlayerState) (inp : TickInput)
    (hc : s.coyoteTimer = 0) (hdt : 0 ≤ inp.dt) : coyoteTimerUpdated s inp = 0 := by
  unfold coyoteTimerUpdated
  split_ifs
  · rfl
  · rw [hc]
    exact max_eq_left (by linarith)

theorem movePlayer_coyoteTimer_zero (s : PlayerState) (inp : TickInput)
    (hc : s.coyoteTimer = 0) (hdt : 0 ≤ inp.dt) : (movePlayer s inp).1.coyoteTimer = 0 := by
  cases hn : B2_IS_NULL inp.playerBodyId
  · rw [movePlayer_state s inp hn]
    cases launches s inp <;> simp [coyoteTimerUpdated_zero s inp hc hdt]
  · simp [movePlayer, hn, hc]

theorem runTicks_coyoteTimer_zero (s : PlayerState) (inps : List TickInput)
    (hc : s.coyoteTimer = 0) (hdt : ∀ i ∈ inps, 0 ≤ i.dt) :
    (runTicks s inps).coyoteTimer = 0 := by
  induction inps generalizing s with
  | nil => exact hc
  | cons inp rest ih =>
    simp only [runTicks]
    exact ih _ (movePlayer_coyoteTimer_zero s inp hc (hdt inp (List.mem_cons_self _ _)))
      (fun i hi => hdt i (List.mem_cons_of_mem _ hi))

/-- C6 (what the code does): in every run that starts from the initial state
and whose ticks have dt >= 0, a tick that resolves not grounded never launches
a jump, whether or not the jump key is freshly pressed on it: the coyote timer
is 0 at every tick because `PLAYER_COYOTE_TIME` is 0. So no jump is possible
after leaving a platform. -/
theorem C6_no_jump_after_leaving (inps : List TickInput) (inp : TickInput)
    (hdt : ∀ i ∈ inps, 0 ≤ i.dt) (hdt2 : 0 ≤ inp.dt)
    (hg : groundCheck (runTicks initialState inps) inp = false) :
    (runTicks initialState inps).coyoteTimer = 0 ∧
    launches (runTicks initialState inps) inp = false ∧
    (movePlayer (runTicks initialState inps) inp).2.setLinearVelocity = none := by
  have hc := runTicks_coyoteTimer_zero initialState inps rfl hdt
  have hl : launches (runTicks initialState inps) inp = false := by
    cases hb : launches (runTicks initialState inps) inp
    · rfl
    · rw [launches_iff] at hb
      simp [hg, coyoteTimerUpdated_zero _ inp hc hdt2] at hb
  refine ⟨hc, hl, ?_⟩
  cases hn : B2_IS_NULL inp.playerBodyId
  · rw [movePlayer_setLinearVelocity _ _ hn]
    simp [hl]
  · simp [movePlayer, hn, TickOutput.skipped]

/-- C6 at a concrete run at 60 Hz from the initial state: two ticks standing on
the platform leave the character grounded; on the next tick the platform is
gone and the jump key is freshly pressed; no jump is launched. -/
theorem C6_no_jump_after_leaving_witness :
    (runTicks initialState [demoGroundTick, demoGroundTick]).isGrounded = true ∧
    jumpKeyJustPressed (runTicks initialState [demoGroundTick, demoGroundTick])
      demoAirTickHeld = true ∧
    groundCheck (runTicks initialState [demoGroundTick, demoGroundTick]) demoAirTickHeld
      = false ∧
    (movePlayer (runTicks initialState [demoGroundTick, demoGroundTick])
      demoAirTickHeld).2.setLinearVelocity = none := by
  have hn : B2_IS_NULL demoGroundTick.playerBodyId = false := by decide
  have hg : ∀ s, groundCheck s demoAirTickHeld = false := fun s =>
    groundCheck_demoAirTick s true
  have h1 : (movePlayer initialState demoGroundTick).1.jumpBufferTimer = 0 := by
    have hl : launches initialState demoGroundTick = true := by
      rw [launches_iff]
      left
      refine ⟨⟨groundCheck_demoGroundTick _, rfl⟩, ?_⟩
      norm_num [jumpBufferTimerUpdated, jumpKeyJustPressed, demoGroundTick, demoAirTick,
        initialState, PLAYER_JUMP_BUFFER_TIME]
    rw [movePlayer_state _ _ hn]
    simp [hl]
  have hl2 : launches (movePlayer initialState demoGroundTick).1 demoGroundTick = false := by
    cases hb : launches (movePlayer initialState demoGroundTick).1 demoGroundTick
    · rfl
    · rw [launches_iff] at hb
      simp only [jumpBufferTimerUpdated, jumpKeyJustPressed, h1] at hb
      simp [demoGroundTick, demoAirTick] at hb
  have hgr : (runTicks initialState [demoGroundTick, demoGroundTick]).isGrounded = true := by
    simp only [runTicks]
    rw [movePlayer_state _ _ hn]
    simp [hl2, groundCheck_demoGroundTick]
  have hprev : (runTicks initialState [demoGroundTick, demoGroundTick]).previousJumpKeyHeld
      = false := by
    simp only [runTicks]
    rw [movePlayer_state _ _ hn]
    rfl
  refine ⟨hgr, ?_, hg _, (C6_no_jump_after_leaving [demoGroundTick, demoGroundTick]
    demoAirTickHeld ?_ ?_ (hg _)).2.2⟩
  · simp [jumpKeyJustPressed, hprev, demoAirTickHeld]
  · intro i hi
    simp only [List.mem_cons, List.mem_singleton, List.not_mem_nil, or_false, or_self] at hi
    rw [hi]
    norm_num [demoGroundTick, demoAirTick]
  · norm_num [demoAirTickHeld, demoAirTick]

/-! ## Jump cut -/

theorem groundCheck_demoRisingTick (s : PlayerState) (velY : ℚ) :
    groundCheck s (demoRisingTick velY) = false := by
  simp [groundCheck, groundCheckSuppressed, demoRisingTick, demoAirTick, contactScan]

theorem currentGravityScale_airborne_jumping (velY : ℚ) (jumpKeyHeld : Bool) :
    currentGravityScale true false velY jumpKeyHeld =
      if velY > 1 / 100 then
        (if jumpKeyHeld then PLAYER_BASE_GRAVITY_SCALE
         else PLAYER_BASE_GRAVITY_SCALE * PLAYER_JUMP_CUT_GRAVITY_FACTOR)
      else if velY < -(1 / 100) then PLAYER_BASE_GRAVITY_SCALE * PLAYER_FALL_GRAVITY_FACTOR
      else PLAYER_BASE_GRAVITY_SCALE := by
  simp [currentGravityScale]

theorem movePlayer_airborne_no_press (s : PlayerState) (inp : TickInput)
    (hn : B2_IS_NULL inp.playerBodyId = false)
    (hg : groundCheck s inp = false) (hp : jumpKeyJustPressed s inp = false) :
    (movePlayer s inp).1.isGrounded = false ∧
    (movePlayer s inp).1.isJumping = s.isJumping ∧
    (movePlayer s inp).2.setLinearVelocity = none := by
  have hl := launches_false_of_airborne s inp hg hp
  rw [movePlayer_state s inp hn, movePlayer_setLinearVelocity s inp hn]
  simp [hl, hg, isJumpingUpdated]

/-- C7 as stated fails: airborne before and after the ground check, isJumping,
the jump key released on this tick after being held, and a vertical velocity of
0.005 > 0: the gravity scale applied is base (25/9), not base * 2.5. -/
theorem C7_counterexample :
    B2_IS_NULL (demoRisingTick (1 / 200)).playerBodyId = false ∧
    demoRisingState.isGrounded = false ∧
    groundCheck demoRisingState (demoRisingTick (1 / 200)) = false ∧
    demoRisingState.isJumping = true ∧
    0 < (demoRisingTick (1 / 200)).playerVel.y ∧
    demoRisingState.previousJumpKeyHeld = true ∧
    (demoRisingTick (1 / 200)).jumpKeyHeld = false ∧
    (movePlayer demoRisingState (demoRisingTick (1 / 200))).2.setGravityScale
      = some PLAYER_BASE_GRAVITY_SCALE ∧
    PLAYER_BASE_GRAVITY_SCALE ≠ PLAYER_BASE_GRAVITY_SCALE * PLAYER_JUMP_CUT_GRAVITY_FACTOR := by
  have hn : B2_IS_NULL (demoRisingTick (1 / 200)).playerBodyId = false := by decide
  have hg := groundCheck_demoRisingTick demoRisingState (1 / 200)
  refine ⟨hn, rfl, hg, rfl, ?_, rfl, rfl, ?_, ?_⟩
  · norm_num [demoRisingTick]
  · obtain ⟨h1, h2, -⟩ := movePlayer_airborne_no_press demoRisingState _ hn hg rfl
    rw [movePlayer_setGravityScale _ _ hn, h1, h2]
    have : demoRisingState.isJumping = true := rfl
    rw [this, currentGravityScale_airborne_jumping]
    norm_num [demoRisingTick]
  · rw [base_gravity_scale_eq]
    norm_num [PLAYER_JUMP_CUT_GRAVITY_FACTOR]

/-- C7 (amended): on every tick (valid player body) on which the character is
airborne (not grounded before the tick and resolved not grounded), isJumping is
true, the vertical velocity is above the code's threshold 0.01, and the jump key
goes from held on the previous tick to released on this tick, the gravity scale
applied on that tick is base * jumpCutMultiplier = base * 2.5; on the same state
and tick with the key still held it is base. -/
theorem C7_jump_cut (s : PlayerState) (inp : TickInput)
    (hn : B2_IS_NULL inp.playerBodyId = false)
    (hs : s.isGrounded = false)
    (hg : groundCheck s inp = false)
    (hj : s.isJumping = true)
    (hv : inp.playerVel.y > 1 / 100)
    (hprev : s.previousJumpKeyHeld = true)
    (hrel : inp.jumpKeyHeld = false) :
    (movePlayer s inp).2.setGravityScale =
      some (PLAYER_BASE_GRAVITY_SCALE * PLAYER_JUMP_CUT_GRAVITY_FACTOR) ∧
    PLAYER_JUMP_CUT_GRAVITY_FACTOR = 5 / 2 ∧
    (movePlayer s { inp with jumpKeyHeld := true }).2.setGravityScale =
      some PLAYER_BASE_GRAVITY_SCALE := by
  refine ⟨?_, rfl, ?_⟩
  · have hp : jumpKeyJustPressed s inp = false := by simp [jumpKeyJustPressed, hrel]
    obtain ⟨h1, h2, -⟩ := movePlayer_airborne_no_press s inp hn hg hp
    rw [movePlayer_setGravityScale _ _ hn, h1, h2, hj, currentGravityScale_airborne_jumping,
      if_pos hv, hrel]
    rfl
  · have hp : jumpKeyJustPressed s { inp with jumpKeyHeld := true } = false := by
      simp [jumpKeyJustPressed, hprev]
    have hg2 : groundCheck s { inp with jumpKeyHeld := true } = false := by
      have hd : decide (inp.playerVel.y > 1 / 100) = true := decide_eq_true hv
      simp only [groundCheck, groundCheckSuppressed, hs, hd]
      rfl
    obtain ⟨h1, h2, -⟩ := movePlayer_airborne_no_press s { inp with jumpKeyHeld := true } hn hg2 hp
    rw [movePlayer_setGravityScale s { inp with jumpKeyHeld := true } hn, h1, h2, hj,
      currentGravityScale_airborne_jumping, if_pos hv]
    rfl

/-- C7 (amended) at a concrete tick: rising at 5 units per second, the key
released: the scale is base * 2.5. -/
theorem C7_jump_cut_witness :
    (demoRisingTick 5).playerVel.y > 1 / 100 ∧
    (movePlayer demoRisingState (demoRisingTick 5)).2.setGravityScale =
      some (PLAYER_BASE_GRAVITY_SCALE * PLAYER_JUMP_CUT_GRAVITY_FACTOR) := by
  have hv : (demoRisingTick 5).playerVel.y > 1 / 100 := by norm_num [demoRisingTick]
  exact ⟨hv, (C7_jump_cut demoRisingState (demoRisingTick 5) (by decide) rfl
    (groundCheck_demoRisingTick _ _) rfl hv rfl rfl).1⟩

/-! ## A held jump key -/

theorem movePlayer_applyForceToCenter (s : PlayerState) (inp : TickInput)
    (h : B2_IS_NULL inp.playerBodyId = false) :
    (movePlayer s inp).2.applyForceToCenter =
      if forceX (movePlayer s inp).1.isGrounded inp.leftKeyHeld inp.rightKeyHeld
          inp.playerVel.x inp.playerMass inp.dt ≠ 0 then
        some ⟨forceX (movePlayer s inp).1.isGrounded inp.leftKeyHeld inp.rightKeyHeld
          inp.playerVel.x inp.playerMass inp.dt, 0⟩
      else none := by
  simp [movePlayer, h]

theorem accelRate_eq (isGrounded leftKeyHeld : Bool) (velX : ℚ) :
    accelRate isGrounded leftKeyHeld velX =
      (if isGrounded then 100 else 60) *
        (if leftKeyHeld then (if velX > 0 then 3 / 2 else 1)
         else (if velX < 0 then 3 / 2 else 1)) := by
  unfold accelRate sign direction PLAYER_GROUND_ACCELERATION PLAYER_AIR_ACCELERATION
    PLAYER_TURN_SPEED_FACTOR
  rcases lt_trichotomy velX 0 with hv | hv | hv
  · have h2 : ¬ velX > 0 := not_lt_of_gt hv
    cases leftKeyHeld <;> cases isGrounded <;> norm_num [hv, h2]
  · subst hv
    cases leftKeyHeld <;> cases isGrounded <;> norm_num
  · have h2 : ¬ velX < 0 := not_lt_of_gt hv
    cases leftKeyHeld <;> cases isGrounded <;> norm_num [hv, h2]

theorem forceX_held (isGrounded leftKeyHeld rightKeyHeld : Bool) (velX mass dt : ℚ)
    (h : leftKeyHeld = true ∨ rightKeyHeld = true) :
    forceX isGrounded leftKeyHeld rightKeyHeld velX mass dt =
      if leftKeyHeld then
        (if velX > -20 then -1 * accelRate isGrounded leftKeyHeld velX * mass else 0)
      else
        (if velX < 20 then 1 * accelRate isGrounded leftKeyHeld velX * mass else 0) := by
  have hk : (leftKeyHeld || rightKeyHeld) = true := by
    rcases h with h | h <;> simp [h]
  unfold forceX
  rw [if_pos hk]
  cases leftKeyHeld <;> norm_num [direction, PLAYER_MAX_SPEED]

/-- C9: with left or right held, forceX = direction * accel * mass when the
horizontal velocity is strictly inside the max speed in the input direction
(vx < 20 for right, vx > -20 for left) and forceX = 0 otherwise, where the
direction is -1 if left is held (also when both keys are held) and +1
otherwise, and accel is 100 when the grounded flag is true and 60 when not,
times 1.5 exactly when vx is nonzero and of the sign opposite to the direction.
At exactly max speed in the held direction the force is zero. On a tick with a
valid player body the grounded flag is the one the tick leaves in the state and
the force is applied only when it is nonzero. -/
theorem C9_horizontal_force (isGrounded leftKeyHeld rightKeyHeld : Bool)
    (velX mass dt : ℚ) (s : PlayerState) (inp : TickInput)
    (h : leftKeyHeld = true ∨ rightKeyHeld = true)
    (hn : B2_IS_NULL inp.playerBodyId = false) :
    forceX isGrounded leftKeyHeld rightKeyHeld velX mass dt =
      (if leftKeyHeld then
        (if velX > -20 then
          (-1) * ((if isGrounded then 100 else 60) * (if velX > 0 then 3 / 2 else 1)) * mass
         else 0)
       else
        (if velX < 20 then
          1 * ((if isGrounded then 100 else 60) * (if velX < 0 then 3 / 2 else 1)) * mass
         else 0)) ∧
    (leftKeyHeld = false → forceX isGrounded leftKeyHeld rightKeyHeld 20 mass dt = 0) ∧
    (leftKeyHeld = true → forceX isGrounded leftKeyHeld rightKeyHeld (-20) mass dt = 0) ∧
    (movePlayer s inp).2.applyForceToCenter =
      (if forceX (movePlayer s inp).1.isGrounded inp.leftKeyHeld inp.rightKeyHeld
          inp.playerVel.x inp.playerMass inp.dt ≠ 0 then
        some ⟨forceX (movePlayer s inp).1.isGrounded inp.leftKeyHeld inp.rightKeyHeld
          inp.playerVel.x inp.playerMass inp.dt, 0⟩
      else none) := by
  refine ⟨?_, ?_, ?_, movePlayer_applyForceToCenter s inp hn⟩
  · rw [forceX_held _ _ _ _ _ _ h, accelRate_eq]
    cases leftKeyHeld <;> simp
  · intro hl
    rw [forceX_held _ _ _ _ _ _ h, hl]
    norm_num
  · intro hl
    rw [forceX_held _ _ _ _ _ _ h, hl]
    norm_num

/-- C9 at a concrete tick: grounded, right held, moving right at exactly 20:
no force is applied. -/
theorem C9_horizontal_force_witness :
    B2_IS_NULL (demoRunTick 20).playerBodyId = false ∧
    forceX true false true 20 1 (1 / 60) = 0 :=
  ⟨by decide,
   (C9_horizontal_force true false true 20 1 (1 / 60) demoStandingState (demoRunTick 20)
     (Or.inr rfl) (by decide)).2.1 rfl⟩

/-! ## Max speed on the acceleration path -/

theorem sign_pos (v : ℚ) (h : 0 < v) : sign v = 1 := by
  simp [sign, h]

theorem sign_neg (v : ℚ) (h : v < 0) : sign v = -1 := by
  simp [sign, h, not_lt_of_gt h]

theorem sign_zero : sign 0 = 0 := by
  simp [sign]

theorem forceXF32_released (isGrounded : Bool) (velX mass dt : ℚ) :
    forceXF32 isGrounded false false velX mass dt =
      if isGrounded = true ∧ |velX| > 1 / 100 then
        (if |roundF32 (roundF32 (-sign velX * roundF32 (PLAYER_GROUND_DECELERATION * mass) * dt)
            / mass)| > |velX| then
           roundF32 (roundF32 (-velX * mass) / dt)
         else -sign velX * roundF32 (PLAYER_GROUND_DECELERATION * mass))
      else 0 := by
  unfold forceXF32
  simp only [Bool.or_self, Bool.false_eq_true, if_false]

theorem forceXF32_released_zero (isGrounded : Bool) (velX mass dt : ℚ)
    (h : isGrounded = false ∨ |velX| ≤ 1 / 100) :
    forceXF32 isGrounded false false velX mass dt = 0 := by
  rw [forceXF32_released, if_neg]
  rintro ⟨hg, hv⟩
  rcases h with h | h
  · rw [h] at hg
    exact Bool.false_ne_true hg
  · exact absurd hv (not_lt_of_ge h)

theorem forceXF32_of_decelClampTakenF32 (isGrounded leftKeyHeld rightKeyHeld : Bool)
    (velX mass dt : ℚ)
    (h : decelClampTakenF32 isGrounded leftKeyHeld rightKeyHeld velX mass dt = true) :
    forceXF32 isGrounded leftKeyHeld rightKeyHeld velX mass dt =
      roundF32 (roundF32 (-velX * mass) / dt) := by
  simp only [decelClampTakenF32, Bool.and_eq_true, Bool.not_eq_true', decide_eq_true_eq] at h
  obtain ⟨⟨⟨hk, hg⟩, hv⟩, hc⟩ := h
  unfold forceXF32
  rw [hk]
  simp only [Bool.false_eq_true, if_false]
  rw [if_pos ⟨hg, hv⟩, if_pos hc]

theorem roundF32_rel (x : ℚ) (h : 1 / 2 ^ 126 ≤ |x|) :
    |roundF32 x - x| ≤ 1 / 16777216 * |x| := by
  have h1 : (2 : ℚ) ^ (-126 : ℤ) ≤ |x| := by
    have e : (2 : ℚ) ^ (-126 : ℤ) = 1 / 2 ^ 126 := by norm_num
    rw [e]
    exact h
  have h2 := roundF32_abs_sub_le_rel x h1
  have e2 : (2 : ℚ) ^ (-24 : ℤ) = 1 / 16777216 := by norm_num
  rw [e2] at h2
  exact h2

theorem roundF32_abs_ge (x : ℚ) (h : 1 / 2 ^ 126 ≤ |x|) :
    (1 - 1 / 16777216) * |x| ≤ |roundF32 x| := by
  have h1 := roundF32_rel x h
  have h2 := abs_sub_abs_le_abs_sub x (roundF32 x)
  rw [abs_sub_comm] at h2
  linarith

theorem roundF32_abs_le (x : ℚ) (h : 1 / 2 ^ 126 ≤ |x|) :
    |roundF32 x| ≤ (1 + 1 / 16777216) * |x| := by
  have h1 := roundF32_rel x h
  have h2 := abs_sub_abs_le_abs_sub (roundF32 x) x
  linarith

theorem decel_magnitude (mass : ℚ) (hm1 : 1 / 1048576 ≤ mass) :
    (1 - 1 / 16777216) * (100 * mass) ≤ roundF32 (100 * mass) ∧
    0 < roundF32 (100 * mass) := by
  have hpos : (0 : ℚ) < 100 * mass := by linarith
  have hN : (1 : ℚ) / 2 ^ 126 ≤ |100 * mass| := by
    rw [abs_of_pos hpos]
    have : (1 : ℚ) / 2 ^ 126 ≤ 100 * (1 / 1048576) := by norm_num
    linarith
  have h := roundF32_abs_ge _ hN
  rw [abs_of_pos hpos, abs_of_nonneg (roundF32_nonneg _ (le_of_lt hpos))] at h
  refine ⟨h, ?_⟩
  have : (0 : ℚ) < (1 - 1 / 16777216) * (100 * mass) := mul_pos (by norm_num) hpos
  linarith

theorem decel_test_ge (s mass dt : ℚ) (hs : s = 1 ∨ s = -1)
    (hm1 : 1 / 1048576 ≤ mass) (hd1 : 1 / 1048576 ≤ dt) :
    (1 - 1 / 16777216) ^ 2 * (roundF32 (100 * mass) * dt / mass) ≤
      |roundF32 (roundF32 (-s * roundF32 (100 * mass) * dt) / mass)| := by
  obtain ⟨hD, hD0⟩ := decel_magnitude mass hm1
  generalize roundF32 (100 * mass) = D at hD hD0 ⊢
  have hm : 0 < mass := by linarith
  have hdt : 0 < dt := by linarith
  have habs1 : |(-s * D * dt)| = D * dt := by
    rcases hs with h | h <;> rw [h]
    · rw [show (-1 : ℚ) * D * dt = -(D * dt) by ring, abs_neg, abs_of_pos (mul_pos hD0 hdt)]
    · rw [show (-(-1) : ℚ) * D * dt = D * dt by ring, abs_of_pos (mul_pos hD0 hdt)]
  have hD50 : 50 * mass ≤ D := by linarith
  have hDdt : (50 : ℚ) / 1048576 / 1048576 ≤ D * dt := by
    calc (50 : ℚ) / 1048576 / 1048576 = (50 * (1 / 1048576)) * (1 / 1048576) := by norm_num
      _ ≤ D * dt := mul_le_mul (by linarith) hd1 (by norm_num) (le_of_lt hD0)
  have hN1 : (1 : ℚ) / 2 ^ 126 ≤ |(-s * D * dt)| := by
    rw [habs1]
    have : (1 : ℚ) / 2 ^ 126 ≤ 50 / 1048576 / 1048576 := by norm_num
    linarith
  have hA1 := roundF32_abs_ge _ hN1
  rw [habs1] at hA1
  generalize roundF32 (-s * D * dt) = A1 at hA1 ⊢
  have habs2 : |A1 / mass| = |A1| / mass := by rw [abs_div, abs_of_pos hm]
  have hA1m : 25 * dt ≤ |A1| / mass := by
    rw [le_div_iff₀ hm]
    have h1 : (1 - 1 / 16777216) * (50 * mass * dt) ≤ (1 - 1 / 16777216) * (D * dt) := by
      apply mul_le_mul_of_nonneg_left _ (by norm_num)
      exact mul_le_mul_of_nonneg_right hD50 (le_of_lt hdt)
    have h2 : 25 * dt * mass ≤ (1 - 1 / 16777216) * (50 * mass * dt) := by
      have := mul_pos hm hdt
      nlinarith
    linarith
  have hN2 : (1 : ℚ) / 2 ^ 126 ≤ |A1 / mass| := by
    rw [habs2]
    have : (1 : ℚ) / 2 ^ 126 ≤ 25 * (1 / 1048576) := by norm_num
    linarith
  have hA2 := roundF32_abs_ge _ hN2
  rw [habs2] at hA2
  calc (1 - 1 / 16777216) ^ 2 * (D * dt / mass)
      = (1 - 1 / 16777216) * ((1 - 1 / 16777216) * (D * dt) / mass) := by ring
    _ ≤ (1 - 1 / 16777216) * (|A1| / mass) := by
        apply mul_le_mul_of_nonneg_left _ (by norm_num)
        exact div_le_div_of_nonneg_right hA1 (le_of_lt hm)
    _ ≤ |roundF32 (A1 / mass)| := hA2

theorem decel_clamp_residue (velX mass dt : ℚ)
    (hm1 : 1 / 1048576 ≤ mass) (hd1 : 1 / 1048576 ≤ dt) (hd2 : dt ≤ 1048576)
    (hv : |velX| > 1 / 100) :
    |velX + roundF32 (roundF32 (-velX * mass) / dt) * dt / mass| ≤ 1 / 4194304 * |velX| := by
  have hm : 0 < mass := by linarith
  have hdt : 0 < dt := by linarith
  have hV : 0 < |velX| := by linarith
  have hp : |(-velX * mass)| = |velX| * mass := by
    rw [neg_mul, abs_neg, abs_mul, abs_of_pos hm]
  have hpm : (1 : ℚ) / 100 * (1 / 1048576) ≤ |velX| * mass :=
    mul_le_mul (le_of_lt hv) hm1 (by norm_num) (le_of_lt hV)
  have hN1 : (1 : ℚ) / 2 ^ 126 ≤ |(-velX * mass)| := by
    rw [hp]
    have : (1 : ℚ) / 2 ^ 126 ≤ 1 / 100 * (1 / 1048576) := by norm_num
    linarith
  have hP1 := roundF32_rel _ hN1
  have hP2 := roundF32_abs_le _ hN1
  have hP3 := roundF32_abs_ge _ hN1
  rw [hp] at hP1 hP2 hP3
  generalize roundF32 (-velX * mass) = P at hP1 hP2 hP3 ⊢
  have hQabs : |P / dt| = |P| / dt := by rw [abs_div, abs_of_pos hdt]
  have hPlow : (1 : ℚ) / 200 * (1 / 1048576) ≤ |P| := by
    have : (1 : ℚ) / 200 * (1 / 1048576) ≤ (1 - 1 / 16777216) * (1 / 100 * (1 / 1048576)) := by
      norm_num
    have h2 : (1 - 1 / 16777216) * (1 / 100 * (1 / 1048576))
        ≤ (1 - 1 / 16777216) * (|velX| * mass) :=
      mul_le_mul_of_nonneg_left hpm (by norm_num)
    linarith
  have hN2 : (1 : ℚ) / 2 ^ 126 ≤ |P / dt| := by
    rw [hQabs, le_div_iff₀ hdt]
    have h1 : (1 : ℚ) / 2 ^ 126 * dt ≤ 1 / 2 ^ 126 * 1048576 :=
      mul_le_mul_of_nonneg_left hd2 (by norm_num)
    have h2 : (1 : ℚ) / 2 ^ 126 * 1048576 ≤ 1 / 200 * (1 / 1048576) := by norm_num
    linarith
  have hF := roundF32_rel _ hN2
  rw [hQabs] at hF
  generalize roundF32 (P / dt) = F at hF ⊢
  have e : velX + F * dt / mass
      = (F - P / dt) * (dt / mass) + (P - -velX * mass) / mass := by
    field_simp
    ring
  have hdm : 0 < dt / mass := div_pos hdt hm
  have t1 : |(F - P / dt) * (dt / mass)| ≤ 1 / 16777216 * (|P| / dt) * (dt / mass) := by
    rw [abs_mul, abs_of_pos hdm]
    exact mul_le_mul_of_nonneg_right hF (le_of_lt hdm)
  have t2 : |(P - -velX * mass) / mass| ≤ 1 / 16777216 * (|velX| * mass) / mass := by
    rw [abs_div, abs_of_pos hm]
    exact div_le_div_of_nonneg_right hP1 (le_of_lt hm)
  have t3 : 1 / 16777216 * (|P| / dt) * (dt / mass) = 1 / 16777216 * |P| / mass := by
    field_simp
    ring
  have t4 : 1 / 16777216 * (|velX| * mass) / mass = 1 / 16777216 * |velX| := by
    field_simp
    ring
  have t5 : 1 / 16777216 * |P| / mass
      ≤ 1 / 16777216 * ((1 + 1 / 16777216) * (|velX| * mass)) / mass := by
    apply div_le_div_of_nonneg_right _ (le_of_lt hm)
    exact mul_le_mul_of_nonneg_left hP2 (by norm_num)
  have t6 : 1 / 16777216 * ((1 + 1 / 16777216) * (|velX| * mass)) / mass
      = 1 / 16777216 * (1 + 1 / 16777216) * |velX| := by
    field_simp
    ring
  rw [e]
  have habs := abs_add ((F - P / dt) * (dt / mass)) ((P - -velX * mass) / mass)
  have hfin : 1 / 16777216 * (1 + 1 / 16777216) * |velX| + 1 / 16777216 * |velX|
      ≤ 1 / 4194304 * |velX| := by
    nlinarith
  linarith

theorem decel_overshoot_bound (a V : ℚ) (hV : 0 < V)
    (h : (1 - 1 / 16777216) ^ 2 * a ≤ V) : a - V ≤ 1 / 4194304 * V := by
  have hc : (1 : ℚ) ≤ (1 - 1 / 16777216) ^ 2 * (1 + 1 / 4194304) := by norm_num
  have h1 : (1 - 1 / 16777216) ^ 2 * a ≤ (1 - 1 / 16777216) ^ 2 * ((1 + 1 / 4194304) * V) := by
    have : V ≤ (1 - 1 / 16777216) ^ 2 * (1 + 1 / 4194304) * V :=
      le_mul_of_one_le_left (le_of_lt hV) hc
    linarith
  have h2 := le_of_mul_le_mul_left h1 (by norm_num : (0 : ℚ) < (1 - 1 / 16777216) ^ 2)
  linarith

theorem decel_test_gt (s velX mass dt : ℚ) (hs : s = 1 ∨ s = -1)
    (hm1 : 1 / 1048576 ≤ mass) (hd1 : 1 / 1048576 ≤ dt) (hV : 0 < |velX|)
    (hstep : (1 + 1 / 2097152) * |velX| ≤ 100 * dt) :
    |roundF32 (roundF32 (-s * roundF32 (100 * mass) * dt) / mass)| > |velX| := by
  have h := decel_test_ge s mass dt hs hm1 hd1
  obtain ⟨hD, -⟩ := decel_magnitude mass hm1
  have hm : 0 < mass := by linarith
  have hdt : 0 < dt := by linarith
  have h1 : (1 - 1 / 16777216) * (100 * dt) ≤ roundF32 (100 * mass) * dt / mass := by
    rw [le_div_iff₀ hm]
    have := mul_le_mul_of_nonneg_right hD (le_of_lt hdt)
    linarith
  have h2 : (1 - 1 / 16777216) ^ 2 * ((1 - 1 / 16777216) * (100 * dt))
      ≤ (1 - 1 / 16777216) ^ 2 * (roundF32 (100 * mass) * dt / mass) :=
    mul_le_mul_of_nonneg_left h1 (by norm_num)
  have h3 : (1 - 1 / 16777216) ^ 3 * ((1 + 1 / 2097152) * |velX|)
      ≤ (1 - 1 / 16777216) ^ 3 * (100 * dt) :=
    mul_le_mul_of_nonneg_left hstep (by norm_num)
  have hc : (1 : ℚ) < (1 - 1 / 16777216) ^ 3 * (1 + 1 / 2097152) := by norm_num
  have h4 : |velX| < (1 - 1 / 16777216) ^ 3 * (1 + 1 / 2097152) * |velX| :=
    lt_mul_of_one_lt_left hV hc
  have e1 : (1 - 1 / 16777216 : ℚ) ^ 3 * (100 * dt)
      = (1 - 1 / 16777216) ^ 2 * ((1 - 1 / 16777216) * (100 * dt)) := by ring
  have e2 : (1 - 1 / 16777216 : ℚ) ^ 3 * (1 + 1 / 2097152) * |velX|
      = (1 - 1 / 16777216) ^ 3 * ((1 + 1 / 2097152) * |velX|) := by ring
  rw [e2] at h4
  rw [e1] at h3
  exact lt_of_lt_of_le h4 (le_trans h3 (le_trans h2 h))

theorem decel_full_step (velX mass dt : ℚ)
    (hm1 : 1 / 1048576 ≤ mass) (hd1 : 1 / 1048576 ≤ dt) (hv : |velX| > 1 / 100)
    (hc : ¬ |roundF32 (roundF32 (-sign velX * roundF32 (100 * mass) * dt) / mass)| > |velX|) :
    velX + -sign velX * roundF32 (100 * mass) * dt / mass = 0 ∨
    (sign (velX + -sign velX * roundF32 (100 * mass) * dt / mass) = sign velX ∧
      |velX + -sign velX * roundF32 (100 * mass) * dt / mass| ≤ |velX|) ∨
    |velX + -sign velX * roundF32 (100 * mass) * dt / mass| ≤ 1 / 4194304 * |velX| := by
  have hm : 0 < mass := by linarith
  have hdt : 0 < dt := by linarith
  obtain ⟨-, hD0⟩ := decel_magnitude mass hm1
  have ha : 0 < roundF32 (100 * mass) * dt / mass := div_pos (mul_pos hD0 hdt) hm
  push_neg at hc
  rcases lt_abs.1 hv with hp | hn
  · have hpos : 0 < velX := by linarith
    have hs := sign_pos velX hpos
    rw [hs] at hc ⊢
    have hge := decel_test_ge 1 mass dt (Or.inl rfl) hm1 hd1
    have hle : (1 - 1 / 16777216) ^ 2 * (roundF32 (100 * mass) * dt / mass) ≤ velX := by
      rw [abs_of_pos hpos] at hc
      exact le_trans hge hc
    have e : velX + -1 * roundF32 (100 * mass) * dt / mass
        = velX - roundF32 (100 * mass) * dt / mass := by ring
    rw [e, abs_of_pos hpos]
    generalize roundF32 (100 * mass) * dt / mass = a at ha hle ⊢
    rcases lt_trichotomy a velX with h | h | h
    · right; left
      have h0 : 0 < velX - a := by linarith
      rw [sign_pos _ h0, abs_of_pos h0]
      exact ⟨rfl, by linarith⟩
    · left
      linarith
    · right; right
      have h0 : velX - a < 0 := by linarith
      rw [abs_of_neg h0]
      have := decel_overshoot_bound a velX hpos hle
      linarith
  · have hneg : velX < 0 := by linarith
    have hs := sign_neg velX hneg
    rw [hs] at hc ⊢
    have hge := decel_test_ge (-1) mass dt (Or.inr rfl) hm1 hd1
    have hle : (1 - 1 / 16777216) ^ 2 * (roundF32 (100 * mass) * dt / mass) ≤ -velX := by
      rw [abs_of_neg hneg] at hc
      exact le_trans hge hc
    have e : velX + -(-1) * roundF32 (100 * mass) * dt / mass
        = velX + roundF32 (100 * mass) * dt / mass := by ring
    rw [e, abs_of_neg hneg]
    generalize roundF32 (100 * mass) * dt / mass = a at ha hle ⊢
    rcases lt_trichotomy a (-velX) with h | h | h
    · right; left
      have h0 : velX + a < 0 := by linarith
      rw [sign_neg _ h0, abs_of_neg h0]
      exact ⟨rfl, by linarith⟩
    · left
      linarith
    · right; right
      have h0 : 0 < velX + a := by linarith
      rw [abs_of_pos h0]
      have := decel_overshoot_bound a (-velX) (by linarith) hle
      linarith

/-- C11 as stated fails in the code's binary32 arithmetic. Grounded, no
direction held, mass 1, dt the binary32 value of 1/60, moving right at
vx = 16175195/67108864 (about 0.241, a binary32 value): the full step 100 * dt
exceeds vx, the clamp branch is taken and computes the binary32 force
-15164245/1048576, which is not -vx * mass / dt; the predicted velocity
vx + forceX * dt / mass is -4280445/562949953421312: not 0, and of the sign
opposite to vx. -/
theorem C11_counterexample :
    (0 : ℚ) < 1 ∧ 0 < F32_1_60 ∧
    |(16175195 / 67108864 : ℚ)| > 1 / 100 ∧
    PLAYER_GROUND_DECELERATION * F32_1_60 > |(16175195 / 67108864 : ℚ)| ∧
    decelClampTakenF32 true false false (16175195 / 67108864) 1 F32_1_60 = true ∧
    forceXF32 true false false (16175195 / 67108864) 1 F32_1_60 = -15164245 / 1048576 ∧
    forceXF32 true false false (16175195 / 67108864) 1 F32_1_60
      ≠ -(16175195 / 67108864) * 1 / F32_1_60 ∧
    16175195 / 67108864 + forceXF32 true false false (16175195 / 67108864) 1 F32_1_60
      * F32_1_60 / 1 = -4280445 / 562949953421312 ∧
    (0 : ℚ) < 16175195 / 67108864 ∧
    16175195 / 67108864 + forceXF32 true false false (16175195 / 67108864) 1 F32_1_60
      * F32_1_60 / 1 < 0 := by
  have hs : sign (16175195 / 67108864) = 1 := sign_pos _ (by norm_num)
  have hD : roundF32 (100 * 1) = 100 := by
    have hx : (100 * 1 : ℚ) = 100 := by norm_num [F32_1_60]
    rw [hx, roundF32_eq_of_close (100) (6) (13107200) (by norm_num)
      (by norm_num [abs_of_pos]) (by norm_num [abs_of_pos]) (by norm_num [abs_lt])]
    norm_num
  have hA1 : roundF32 (-1 * 100 * F32_1_60) = (-6990507 / 4194304) := by
    have hx : (-1 * 100 * F32_1_60 : ℚ) = (-223696225 / 134217728) := by norm_num [F32_1_60]
    rw [hx, roundF32_eq_of_close ((-223696225 / 134217728)) (0) (-13981014) (by norm_num)
      (by norm_num [abs_of_neg]) (by norm_num [abs_of_neg]) (by norm_num [abs_lt])]
    norm_num
  have hA2 : roundF32 ((-6990507 / 4194304) / 1) = (-6990507 / 4194304) := by
    have hx : ((-6990507 / 4194304) / 1 : ℚ) = (-6990507 / 4194304) := by norm_num [F32_1_60]
    rw [hx, roundF32_eq_of_close ((-6990507 / 4194304)) (0) (-13981014) (by norm_num)
      (by norm_num [abs_of_neg]) (by norm_num [abs_of_neg]) (by norm_num [abs_lt])]
    norm_num
  have hP : roundF32 (-(16175195 / 67108864) * 1) = (-16175195 / 67108864) := by
    have hx : (-(16175195 / 67108864) * 1 : ℚ) = (-16175195 / 67108864) := by norm_num [F32_1_60]
    rw [hx, roundF32_eq_of_close ((-16175195 / 67108864)) (-3) (-16175195) (by norm_num)
      (by norm_num [abs_of_neg]) (by norm_num [abs_of_neg]) (by norm_num [abs_lt])]
    norm_num
  have hF : roundF32 ((-16175195 / 67108864) / F32_1_60) = (-15164245 / 1048576) := by
    have hx : ((-16175195 / 67108864) / F32_1_60 : ℚ) = (-129401560 / 8947849) := by norm_num [F32_1_60]
    rw [hx, roundF32_eq_of_close ((-129401560 / 8947849)) (3) (-15164245) (by norm_num)
      (by norm_num [abs_of_neg]) (by norm_num [abs_of_neg]) (by norm_num [abs_lt])]
    norm_num
  have hv : |(16175195 / 67108864 : ℚ)| > 1 / 100 := by
    rw [abs_of_pos (by norm_num)]
    norm_num
  have hcond : |roundF32 (roundF32 (-sign (16175195 / 67108864)
      * roundF32 (PLAYER_GROUND_DECELERATION * 1) * F32_1_60) / 1)|
      > |(16175195 / 67108864 : ℚ)| := by
    unfold PLAYER_GROUND_DECELERATION
    rw [hs, hD, hA1, hA2, abs_of_neg (by norm_num), abs_of_pos (by norm_num)]
    norm_num
  have htaken : decelClampTakenF32 true false false (16175195 / 67108864) 1 F32_1_60
      = true := by
    unfold decelClampTakenF32
    rw [decide_eq_true hv, decide_eq_true hcond]
    rfl
  have hforce : forceXF32 true false false (16175195 / 67108864) 1 F32_1_60
      = -15164245 / 1048576 := by
    rw [forceXF32_of_decelClampTakenF32 _ _ _ _ _ _ htaken, hP, hF]
  refine ⟨by norm_num, by norm_num [F32_1_60], hv, ?_, htaken, hforce, ?_, ?_, by norm_num, ?_⟩
  · rw [abs_of_pos (by norm_num)]
    norm_num [PLAYER_GROUND_DECELERATION, F32_1_60]
  · rw [hforce]
    norm_num [F32_1_60]
  · rw [hforce]
    norm_num [F32_1_60]
  · rw [hforce]
    norm_num [F32_1_60]

/-- C11 (amended): in the code's binary32 arithmetic deceleration reverses the
direction by at most a rounding residue. On every tick with no direction held,
mass and dt between 2^-20 and 2^20 and |vx| <= 2^20 (no operation of the branch
overflows or underflows there), with forceX the force the code computes, the
predicted velocity vx + forceX * dt / mass is either 0, or has the sign of vx
and a magnitude no larger than that of vx, or is a rounding residue of magnitude
at most 2^-22 * |vx|, whose sign can be opposite to that of vx. When the clamp
branch is taken, the force is the binary32 value of -vx * mass / dt (the product
rounded, then the quotient rounded) and the predicted velocity is 0 up to such a
residue, not exactly 0; the branch is taken whenever the character is grounded,
|vx| > 0.01 and the full deceleration step 100 * dt is at least
(1 + 2^-21) * |vx|. When airborne or |vx| <= 0.01 the force is 0. -/
theorem C11_deceleration_no_reversal (isGrounded : Bool) (velX mass dt : ℚ)
    (hm1 : 1 / 1048576 ≤ mass) (_hm2 : mass ≤ 1048576)
    (hd1 : 1 / 1048576 ≤ dt) (hd2 : dt ≤ 1048576) (_hv2 : |velX| ≤ 1048576) :
    (velX + forceXF32 isGrounded false false velX mass dt * dt / mass = 0 ∨
      (sign (velX + forceXF32 isGrounded false false velX mass dt * dt / mass) = sign velX ∧
        |velX + forceXF32 isGrounded false false velX mass dt * dt / mass| ≤ |velX|) ∨
      |velX + forceXF32 isGrounded false false velX mass dt * dt / mass|
        ≤ 1 / 4194304 * |velX|) ∧
    (decelClampTakenF32 isGrounded false false velX mass dt = true →
      forceXF32 isGrounded false false velX mass dt
        = roundF32 (roundF32 (-velX * mass) / dt) ∧
      |velX + forceXF32 isGrounded false false velX mass dt * dt / mass|
        ≤ 1 / 4194304 * |velX|) ∧
    (isGrounded = true → |velX| > 1 / 100 →
      (1 + 1 / 2097152) * |velX| ≤ PLAYER_GROUND_DECELERATION * dt →
      decelClampTakenF32 isGrounded false false velX mass dt = true) ∧
    ((isGrounded = false ∨ |velX| ≤ 1 / 100) →
      forceXF32 isGrounded false false velX mass dt = 0) := by
  refine ⟨?_, ?_, ?_, forceXF32_released_zero isGrounded velX mass dt⟩
  · by_cases hz : isGrounded = false ∨ |velX| ≤ 1 / 100
    · right; left
      rw [forceXF32_released_zero isGrounded velX mass dt hz]
      simp
    · push_neg at hz
      obtain ⟨hg, hv⟩ := hz
      have hg2 : isGrounded = true := by
        cases isGrounded
        · exact absurd rfl hg
        · rfl
      rw [forceXF32_released, if_pos ⟨hg2, hv⟩]
      unfold PLAYER_GROUND_DECELERATION
      by_cases hc : |roundF32 (roundF32 (-sign velX * roundF32 (100 * mass) * dt) / mass)|
          > |velX|
      · right; right
        rw [if_pos hc]
        exact decel_clamp_residue velX mass dt hm1 hd1 hd2 hv
      · rw [if_neg hc]
        exact decel_full_step velX mass dt hm1 hd1 hv hc
  · intro ht
    have hf := forceXF32_of_decelClampTakenF32 _ _ _ _ _ _ ht
    simp only [decelClampTakenF32, Bool.and_eq_true, decide_eq_true_eq] at ht
    refine ⟨hf, ?_⟩
    rw [hf]
    exact decel_clamp_residue velX mass dt hm1 hd1 hd2 ht.1.2
  · intro hg hv hstep
    unfold PLAYER_GROUND_DECELERATION at hstep
    have hV : 0 < |velX| := by linarith
    have hs : sign velX = 1 ∨ sign velX = -1 := by
      rcases lt_abs.1 hv with hp | hn
      · exact Or.inl (sign_pos velX (by linarith))
      · exact Or.inr (sign_neg velX (by linarith))
    have hc := decel_test_gt (sign velX) velX mass dt hs hm1 hd1 hV hstep
    unfold decelClampTakenF32 PLAYER_GROUND_DECELERATION
    rw [decide_eq_true hv, decide_eq_true hc, hg]
    rfl

/-- C11 (amended) at a concrete tick: grounded at 60 Hz with mass 1, moving
right at 1: the clamp branch is taken and the predicted velocity is within
2^-22 of 0. -/
theorem C11_deceleration_no_reversal_witness :
    decelClampTakenF32 true false false 1 1 F32_1_60 = true ∧
    |(1 : ℚ) + forceXF32 true false false 1 1 F32_1_60 * F32_1_60 / 1|
      ≤ 1 / 4194304 * |(1 : ℚ)| := by
  have h := C11_deceleration_no_reversal true 1 1 F32_1_60 (by norm_num) (by norm_num)
    (by norm_num [F32_1_60]) (by norm_num [F32_1_60]) (by norm_num [abs_of_pos])
  have ht : decelClampTakenF32 true false false 1 1 F32_1_60 = true :=
    h.2.2.1 rfl (by norm_num [abs_of_pos])
      (by norm_num [abs_of_pos, PLAYER_GROUND_DECELERATION, F32_1_60])
  exact ⟨ht, (h.2.1 ht).2⟩

/-! ## Animation state and facing direction -/

theorem movePlayer_setPlayerAnimation (s : PlayerState) (inp : TickInput)
    (h : B2_IS_NULL inp.playerBodyId = false) :
    (movePlayer s inp).2.setPlayerAnimation =
      some (nextAnimation (movePlayer s inp).1.isGrounded inp.leftKeyHeld inp.rightKeyHeld
              inp.playerVel.y inp.playerGameObject.currentAnimationName,
            targetFacingLeft inp) := by
  simp [movePlayer, h]

theorem nextAnimation_eq (isGrounded leftKeyHeld rightKeyHeld : Bool) (velY : ℚ)
    (previous : String) :
    nextAnimation isGrounded leftKeyHeld rightKeyHeld velY previous =
      if isGrounded = true then
        (if leftKeyHeld = true ∨ rightKeyHeld = true then "walk" else "idle")
      else if velY > F32_0_1 then "jump"
      else if velY < -F32_0_1 then "fall"
      else if previous = "jump" ∨ previous = "fall" then previous
      else "fall" := by
  unfold nextAnimation
  cases isGrounded <;> cases leftKeyHeld <;> cases rightKeyHeld <;> simp

theorem nextAnimation_mem (isGrounded leftKeyHeld rightKeyHeld : Bool) (velY : ℚ)
    (previous : String) :
    nextAnimation isGrounded leftKeyHeld rightKeyHeld velY previous ∈
      ["idle", "walk", "jump", "fall"] := by
  rw [nextAnimation_eq]
  split_ifs with h1 h2 h3 h4 h5
  · simp
  · simp
  · simp
  · simp
  · rcases h5 with h5 | h5 <;> simp [h5]
  · simp

/-- C12 as stated fails at the binary32 value of `0.1f`: airborne with the
vertical velocity 13421773/134217728, which is > 0.1, and the previous key idle,
the key passed on is fall (the near-apex rule), not jump; and at the velocity
-13421773/134217728, which is < -0.1, with the previous key jump, it is jump,
not fall. -/
theorem C12_counterexample :
    B2_IS_NULL (demoAnimTick F32_0_1 "idle").playerBodyId = false ∧
    (movePlayer demoRisingState (demoAnimTick F32_0_1 "idle")).1.isGrounded = false ∧
    (demoAnimTick F32_0_1 "idle").playerVel.y > 1 / 10 ∧
    (movePlayer demoRisingState (demoAnimTick F32_0_1 "idle")).2.setPlayerAnimation.map
      Prod.fst = some "fall" ∧
    (movePlayer demoRisingState (demoAnimTick (-F32_0_1) "jump")).1.isGrounded = false ∧
    (demoAnimTick (-F32_0_1) "jump").playerVel.y < -(1 / 10) ∧
    (movePlayer demoRisingState (demoAnimTick (-F32_0_1) "jump")).2.setPlayerAnimation.map
      Prod.fst = some "jump" := by
  have hn : ∀ v a, B2_IS_NULL (demoAnimTick v a).playerBodyId = false := fun _ _ => rfl
  have hg : ∀ v a, groundCheck demoRisingState (demoAnimTick v a) = false := fun v a => by
    simp [groundCheck, groundCheckSuppressed, demoAnimTick, demoAirTick, contactScan]
  have hgr : ∀ v a, (movePlayer demoRisingState (demoAnimTick v a)).1.isGrounded = false :=
    fun v a => (movePlayer_airborne_no_press demoRisingState (demoAnimTick v a) (hn v a)
      (hg v a) rfl).1
  refine ⟨hn _ _, hgr _ _, ?_, ?_, hgr _ _, ?_, ?_⟩
  · norm_num [demoAnimTick, F32_0_1]
  · rw [movePlayer_setPlayerAnimation _ _ (hn _ _), hgr, Option.map_some', nextAnimation_eq]
    have h1 : ¬ (demoAnimTick F32_0_1 "idle").playerVel.y > F32_0_1 := lt_irrefl _
    have h2 : ¬ (demoAnimTick F32_0_1 "idle").playerVel.y < -F32_0_1 := by
      norm_num [demoAnimTick, F32_0_1]
    rw [if_neg (by decide), if_neg h1, if_neg h2]
    simp [demoAnimTick, demoPlayerObject]
  · norm_num [demoAnimTick, F32_0_1]
  · rw [movePlayer_setPlayerAnimation _ _ (hn _ _), hgr, Option.map_some', nextAnimation_eq]
    have h1 : ¬ (demoAnimTick (-F32_0_1) "jump").playerVel.y > F32_0_1 := by
      norm_num [demoAnimTick, F32_0_1]
    have h2 : ¬ (demoAnimTick (-F32_0_1) "jump").playerVel.y < -F32_0_1 := lt_irrefl _
    rw [if_neg (by decide), if_neg h1, if_neg h2]
    simp [demoAnimTick, demoPlayerObject]

/-- C12 (amended): on every tick (valid player body) the animation key passed
to `setPlayerAnimation` is one of idle, walk, jump, fall, whatever the previous
key was, and it is: walk if the tick's grounded flag is true and left or right
is held, idle if grounded and neither is held; otherwise jump if the vertical
velocity read at tick start is > 0.1f, fall if it is < -0.1f, where 0.1f is the
binary32 value 13421773/134217728 of the literal (slightly above 0.1), and in
between, the two bounds included, the previous key if that was jump or fall,
else fall. The five scenarios: grounded with no keys gives idle; grounded with
right held gives walk; airborne with vy = 2 gives jump; airborne with vy = -2
gives fall; airborne with vy = 0 and previous key jump gives jump. -/
theorem C12_animation_selection (s : PlayerState) (inp : TickInput) (previous : String)
    (hn : B2_IS_NULL inp.playerBodyId = false) :
    (movePlayer s inp).2.setPlayerAnimation.map Prod.fst =
      some (if (movePlayer s inp).1.isGrounded = true then
              (if inp.leftKeyHeld = true ∨ inp.rightKeyHeld = true then "walk" else "idle")
            else if inp.playerVel.y > F32_0_1 then "jump"
            else if inp.playerVel.y < -F32_0_1 then "fall"
            else if inp.playerGameObject.currentAnimationName = "jump" ∨
                inp.playerGameObject.currentAnimationName = "fall" then
              inp.playerGameObject.currentAnimationName
            else "fall") ∧
    (F32_0_1 = 13421773 / 134217728 ∧ roundF32 (1 / 10) = F32_0_1 ∧ 1 / 10 < F32_0_1) ∧
    (∃ key ∈ ["idle", "walk", "jump", "fall"],
      (movePlayer s inp).2.setPlayerAnimation.map Prod.fst = some key) ∧
    nextAnimation true false false inp.playerVel.y previous = "idle" ∧
    nextAnimation true false true inp.playerVel.y previous = "walk" ∧
    nextAnimation false inp.leftKeyHeld inp.rightKeyHeld 2 previous = "jump" ∧
    nextAnimation false inp.leftKeyHeld inp.rightKeyHeld (-2) previous = "fall" ∧
    nextAnimation false inp.leftKeyHeld inp.rightKeyHeld 0 "jump" = "jump" := by
  rw [movePlayer_setPlayerAnimation s inp hn]
  refine ⟨?_, ⟨rfl, roundF32_tenth, ?_⟩, ⟨_, nextAnimation_mem _ _ _ _ _, rfl⟩,
    ?_, ?_, ?_, ?_, ?_⟩
  · rw [Option.map_some', nextAnimation_eq]
  · norm_num [F32_0_1]
  · rw [nextAnimation_eq]; simp
  · rw [nextAnimation_eq]; simp
  · rw [nextAnimation_eq]; norm_num [F32_0_1]
  · rw [nextAnimation_eq]; norm_num [F32_0_1]
  · rw [nextAnimation_eq]; norm_num [F32_0_1]

/-- C12 (amended) at a concrete tick: airborne near the apex (vy = 0) while the
player object shows jump: the key passed on is jump. -/
theorem C12_animation_selection_witness :
    B2_IS_NULL (demoAnimTick 0 "jump").playerBodyId = false ∧
    (movePlayer demoRisingState (demoAnimTick 0 "jump")).2.setPlayerAnimation.map Prod.fst
      = some "jump" := by
  have hn : B2_IS_NULL (demoAnimTick 0 "jump").playerBodyId = false := by decide
  have hg : groundCheck demoRisingState (demoAnimTick 0 "jump") = false := by
    simp [groundCheck, groundCheckSuppressed, demoAnimTick, demoAirTick, contactScan]
  have hgr := (movePlayer_airborne_no_press demoRisingState (demoAnimTick 0 "jump") hn hg rfl).1
  have h := (C12_animation_selection demoRisingState (demoAnimTick 0 "jump") "jump" hn).1
  rw [hgr] at h
  refine ⟨hn, h.trans ?_⟩
  norm_num [demoAnimTick, demoAirTick, demoPlayerObject, F32_0_1]

theorem targetFacingLeft_eq (inp : TickInput) :
    targetFacingLeft inp =
      if inp.rightKeyHeld = true then false
      else if inp.leftKeyHeld = true then true
      else inp.playerGameObject.spriteFlipped := by
  unfold targetFacingLeft
  cases inp.rightKeyHeld <;> cases inp.leftKeyHeld <;> simp

/-- C13 (what the code does): on every tick (valid player body) the
facing-left flag passed to `setPlayerAnimation` is false whenever the right key
is held, true when only the left key is held, and the player object's
spriteFlipped when neither is held. With both keys held the flag is false
(facing right) although the movement direction of line 227 is -1 (left). -/
theorem C13_facing_direction (s : PlayerState) (inp : TickInput)
    (hn : B2_IS_NULL inp.playerBodyId = false) :
    (movePlayer s inp).2.setPlayerAnimation.map Prod.snd =
      some (if inp.rightKeyHeld = true then false
            else if inp.leftKeyHeld = true then true
            else inp.playerGameObject.spriteFlipped) ∧
    (inp.leftKeyHeld = true → inp.rightKeyHeld = false →
      (movePlayer s inp).2.setPlayerAnimation.map Prod.snd = some true) ∧
    (inp.leftKeyHeld = false → inp.rightKeyHeld = true →
      (movePlayer s inp).2.setPlayerAnimation.map Prod.snd = some false) ∧
    (inp.leftKeyHeld = false → inp.rightKeyHeld = false →
      (movePlayer s inp).2.setPlayerAnimation.map Prod.snd =
        some inp.playerGameObject.spriteFlipped) ∧
    (inp.leftKeyHeld = true → inp.rightKeyHeld = true →
      (movePlayer s inp).2.setPlayerAnimation.map Prod.snd = some false ∧
      direction inp.leftKeyHeld = -1) := by
  rw [movePlayer_setPlayerAnimation s inp hn, Option.map_some', targetFacingLeft_eq]
  refine ⟨rfl, ?_, ?_, ?_, ?_⟩
  · intro hl hr
    simp [hl, hr]
  · intro hl hr
    simp [hl, hr]
  · intro hl hr
    simp [hl, hr]
  · intro hl hr
    simp [hl, hr, direction]

/-- C13 at the failing tick: standing on the platform at rest with both keys
held, the flag passed on is false (facing right) while the force applied is
(-100, 0), to the left. -/
theorem C13_facing_direction_witness :
    demoBothKeysTick.leftKeyHeld = true ∧
    demoBothKeysTick.rightKeyHeld = true ∧
    (movePlayer demoStandingState demoBothKeysTick).2.setPlayerAnimation.map Prod.snd
      = some false ∧
    (movePlayer demoStandingState demoBothKeysTick).2.applyForceToCenter
      = some ⟨-100, 0⟩ := by
  have hn : B2_IS_NULL demoBothKeysTick.playerBodyId = false := by decide
  have hg : groundCheck demoStandingState demoBothKeysTick = true := by
    simp [groundCheck, groundCheckSuppressed, demoBothKeysTick, demoGroundTick, demoAirTick,
      contactScan, demoStandingContact, objectScan, B2_ID_EQUALS, demoPlayerId, demoPlatformId,
      demoPlayerObject, demoPlatform, demoStandingState]
    norm_num
  have hl : launches demoStandingState demoBothKeysTick = false := by
    cases hb : launches demoStandingState demoBothKeysTick
    · rfl
    · rw [launches_iff] at hb
      simp [demoStandingState, demoBothKeysTick, demoGroundTick, demoAirTick] at hb
  have hgr : (movePlayer demoStandingState demoBothKeysTick).1.isGrounded = true := by
    rw [movePlayer_state _ _ hn]
    simp [hl, hg]
  have hf : forceX true demoBothKeysTick.leftKeyHeld demoBothKeysTick.rightKeyHeld
      demoBothKeysTick.playerVel.x demoBothKeysTick.playerMass demoBothKeysTick.dt = -100 := by
    have hf0 : forceX true true true 0 1 (1 / 60) = -100 := by
      rw [forceX_held _ _ _ _ _ _ (Or.inl rfl), accelRate_eq]
      norm_num
    exact hf0
  refine ⟨rfl, rfl, ((C13_facing_direction demoStandingState demoBothKeysTick hn).2.2.2.2
    rfl rfl).1, ?_⟩
  rw [movePlayer_applyForceToCenter _ _ hn, hgr, hf]
  norm_num

/-! ## Timers -/

theorem movePlayer_isGrounded_imp (s : PlayerState) (inp : TickInput)
    (hn : B2_IS_NULL inp.playerBodyId = false)
    (h : (movePlayer s inp).1.isGrounded = true) :
    groundCheck s inp = true ∧ launches s inp = false := by
  rw [movePlayer_state s inp hn] at h
  cases hl : launches s inp
  · simp [hl] at h
    exact ⟨h, rfl⟩
  · simp [hl] at h

/-- C14: on every tick (valid player body) on which the character is grounded,
be it the flag resolved by the tick's ground check or the flag the tick leaves
in the state, coyoteTimer after the tick equals the configured coyote duration
`PLAYER_COYOTE_TIME` (a launch on a grounded tick zeroes the timer, and the
configured duration is 0). Moreover in every run from the initial state with
dt >= 0 the timer equals the configured duration after every tick, so also
after the ticks that start grounded. -/
theorem C14_grounded_coyote_timer (s : PlayerState) (inp : TickInput)
    (hn : B2_IS_NULL inp.playerBodyId = false)
    (hg : groundCheck s inp = true ∨ (movePlayer s inp).1.isGrounded = true) :
    (movePlayer s inp).1.coyoteTimer = PLAYER_COYOTE_TIME ∧
    (∀ inps : List TickInput, (∀ i ∈ inps, 0 ≤ i.dt) →
      (runTicks initialState inps).coyoteTimer = PLAYER_COYOTE_TIME) := by
  have hg2 : groundCheck s inp = true := by
    rcases hg with h | h
    · exact h
    · exact (movePlayer_isGrounded_imp s inp hn h).1
  refine ⟨?_, fun inps h => runTicks_coyoteTimer_zero initialState inps rfl h⟩
  rw [movePlayer_state s inp hn]
  cases hl : launches s inp <;> simp [coyoteTimerUpdated, hg2, PLAYER_COYOTE_TIME]

/-- C14 at a concrete tick: standing on the platform, the timer after the tick
is the configured duration. -/
theorem C14_grounded_coyote_timer_witness :
    groundCheck demoStandingState demoGroundTick = true ∧
    (movePlayer demoStandingState demoGroundTick).1.coyoteTimer = PLAYER_COYOTE_TIME :=
  ⟨groundCheck_demoGroundTick _,
   (C14_grounded_coyote_timer demoStandingState demoGroundTick (by decide)
     (Or.inl (groundCheck_demoGroundTick _))).1⟩

theorem movePlayer_jumpBufferTimer_range (s : PlayerState) (inp : TickInput)
    (hb : 0 ≤ s.jumpBufferTimer ∧ s.jumpBufferTimer ≤ PLAYER_JUMP_BUFFER_TIME)
    (hdt : 0 ≤ inp.dt) :
    0 ≤ (movePlayer s inp).1.jumpBufferTimer ∧
    (movePlayer s inp).1.jumpBufferTimer ≤ PLAYER_JUMP_BUFFER_TIME := by
  have hB : (0 : ℚ) ≤ PLAYER_JUMP_BUFFER_TIME := by norm_num [PLAYER_JUMP_BUFFER_TIME]
  cases hn : B2_IS_NULL inp.playerBodyId
  · rw [movePlayer_state s inp hn]
    cases hl : launches s inp
    · simp only [Bool.false_eq_true, if_false, jumpBufferTimerUpdated]
      cases hp : jumpKeyJustPressed s inp
      · simp only [Bool.false_eq_true, if_false]
        refine ⟨le_max_left _ _, max_le hB ?_⟩
        linarith [hb.2]
      · simp only [if_true]
        exact ⟨hB, le_refl _⟩
    · simp only [if_true]
      exact ⟨le_refl _, hB⟩
  · rw [movePlayer_null s inp hn]
    exact hb

theorem runTicks_jumpBufferTimer_range (s : PlayerState) (inps : List TickInput)
    (hb : 0 ≤ s.jumpBufferTimer ∧ s.jumpBufferTimer ≤ PLAYER_JUMP_BUFFER_TIME)
    (hdt : ∀ i ∈ inps, 0 ≤ i.dt) :
    0 ≤ (runTicks s inps).jumpBufferTimer ∧
    (runTicks s inps).jumpBufferTimer ≤ PLAYER_JUMP_BUFFER_TIME := by
  induction inps generalizing s with
  | nil => exact hb
  | cons inp rest ih =>
    simp only [runTicks]
    exact ih _ (movePlayer_jumpBufferTimer_range s inp hb (hdt inp (List.mem_cons_self _ _)))
      (fun i hi => hdt i (List.mem_cons_of_mem _ hi))

/-- C15: timer bounds. In every state reachable from the initial state by
ticks with dt >= 0, jumpBufferTimer lies in [0, bufferDuration] and coyoteTimer
lies in [0, coyoteDuration]; and on every further tick with dt >= 0 on which
grounded is false (as resolved by the ground check, or as left in the state),
coyoteTimer after the tick is not larger than before. The last part also holds
from any state whose coyoteTimer is not negative. -/
theorem C15_timer_bounds (inps : List TickInput) (inp : TickInput)
    (hdt : ∀ i ∈ inps, 0 ≤ i.dt) (hdt2 : 0 ≤ inp.dt) :
    (0 ≤ (runTicks initialState inps).jumpBufferTimer ∧
      (runTicks initialState inps).jumpBufferTimer ≤ PLAYER_JUMP_BUFFER_TIME) ∧
    (0 ≤ (runTicks initialState inps).coyoteTimer ∧
      (runTicks initialState inps).coyoteTimer ≤ PLAYER_COYOTE_TIME) ∧
    ((groundCheck (runTicks initialState inps) inp = false ∨
        (movePlayer (runTicks initialState inps) inp).1.isGrounded = false) →
      (movePlayer (runTicks initialState inps) inp).1.coyoteTimer ≤
        (runTicks initialState inps).coyoteTimer) ∧
    (∀ s : PlayerState, 0 ≤ s.coyoteTimer → groundCheck s inp = false →
      (movePlayer s inp).1.coyoteTimer ≤ s.coyoteTimer) := by
  have hc := runTicks_coyoteTimer_zero initialState inps rfl hdt
  have hc2 := movePlayer_coyoteTimer_zero (runTicks initialState inps) inp hc hdt2
  refine ⟨?_, ?_, ?_, ?_⟩
  · apply runTicks_jumpBufferTimer_range initialState inps _ hdt
    norm_num [initialState, PLAYER_JUMP_BUFFER_TIME]
  · rw [hc]
    exact ⟨le_refl _, le_of_eq rfl⟩
  · intro _
    rw [hc, hc2]
  · intro s hs hg
    cases hn : B2_IS_NULL inp.playerBodyId
    · rw [movePlayer_state s inp hn]
      cases hl : launches s inp
      · simp only [Bool.false_eq_true, if_false, coyoteTimerUpdated, hg]
        exact max_le hs (by linarith)
      · simp only [if_true]
        exact hs
    · rw [movePlayer_null s inp hn]

/-- C15 at a concrete run at 60 Hz: after an airborne tick from the initial
state the buffer timer is within its bounds. -/
theorem C15_timer_bounds_witness :
    0 ≤ (runTicks initialState [demoAirTick]).jumpBufferTimer ∧
    (runTicks initialState [demoAirTick]).jumpBufferTimer ≤ PLAYER_JUMP_BUFFER_TIME :=
  (C15_timer_bounds [demoAirTick] demoAirTick
    (by
      intro i hi
      rw [List.mem_singleton.1 hi]
      norm_num [demoAirTick])
    (by norm_num [demoAirTick])).1

theorem groundCheck_demoAirTickDt (s : PlayerState) (dt : ℚ) :
    groundCheck s (demoAirTickDt dt) = false := by
  simp [groundCheck, groundCheckSuppressed, demoAirTickDt, demoAirTick, contactScan]

theorem jumpKeyJustPressed_demoAirTickDt (s : PlayerState) (dt : ℚ) :
    jumpKeyJustPressed s (demoAirTickDt dt) = false := by
  simp [jumpKeyJustPressed, demoAirTickDt, demoAirTick]

/-- C16 as stated fails for a negative dt: from the initial state, on an
airborne tick with no key held and dt = -1 (not grounded, no fresh press, no
launch) coyoteTimer goes from 0 to 1 and jumpBufferTimer from 1/10 to 11/10. -/
theorem C16_counterexample :
    (demoAirTickDt (-1)).dt ≤ 0 ∧
    B2_IS_NULL (demoAirTickDt (-1)).playerBodyId = false ∧
    groundCheck initialState (demoAirTickDt (-1)) = false ∧
    jumpKeyJustPressed initialState (demoAirTickDt (-1)) = false ∧
    launches initialState (demoAirTickDt (-1)) = false ∧
    initialState.coyoteTimer = 0 ∧
    (movePlayer initialState (demoAirTickDt (-1))).1.coyoteTimer = 1 ∧
    initialState.jumpBufferTimer = 1 / 10 ∧
    (movePlayer initialState (demoAirTickDt (-1))).1.jumpBufferTimer = 11 / 10 := by
  have hn : B2_IS_NULL (demoAirTickDt (-1)).playerBodyId = false := by decide
  have hg := groundCheck_demoAirTickDt initialState (-1)
  have hp := jumpKeyJustPressed_demoAirTickDt initialState (-1)
  have hl := launches_false_of_airborne _ _ hg hp
  have hst := movePlayer_state initialState (demoAirTickDt (-1)) hn
  refine ⟨?_, hn, hg, hp, hl, rfl, ?_, rfl, ?_⟩
  · norm_num [demoAirTickDt]
  · rw [hst]
    simp only [hl, Bool.false_eq_true, if_false, coyoteTimerUpdated, hg]
    norm_num [initialState, PLAYER_COYOTE_TIME, demoAirTickDt]
  · rw [hst]
    simp only [hl, Bool.false_eq_true, if_false, jumpBufferTimerUpdated, hp]
    norm_num [initialState, PLAYER_JUMP_BUFFER_TIME, demoAirTickDt]

/-- C16 (amended): on a tick (valid player body) with dt <= 0 that does not
launch, from a state whose timers are not negative, a tick that is not grounded
leaves coyoteTimer = before - dt and a tick without a fresh jump press leaves
jumpBufferTimer = before - dt. So a tick with dt = 0 is a no-op for the timers,
and a tick with dt < 0 raises them by -dt. -/
theorem C16_nonpositive_dt_timers (s : PlayerState) (inp : TickInput)
    (hn : B2_IS_NULL inp.playerBodyId = false)
    (hdt : inp.dt ≤ 0)
    (hc : 0 ≤ s.coyoteTimer) (hb : 0 ≤ s.jumpBufferTimer)
    (hl : launches s inp = false) :
    (groundCheck s inp = false → (movePlayer s inp).1.coyoteTimer = s.coyoteTimer - inp.dt) ∧
    (jumpKeyJustPressed s inp = false →
      (movePlayer s inp).1.jumpBufferTimer = s.jumpBufferTimer - inp.dt) ∧
    (inp.dt = 0 →
      (groundCheck s inp = false → (movePlayer s inp).1.coyoteTimer = s.coyoteTimer) ∧
      (jumpKeyJustPressed s inp = false →
        (movePlayer s inp).1.jumpBufferTimer = s.jumpBufferTimer)) := by
  have h1 : groundCheck s inp = false →
      (movePlayer s inp).1.coyoteTimer = s.coyoteTimer - inp.dt := by
    intro hg
    rw [movePlayer_state s inp hn]
    simp only [hl, Bool.false_eq_true, if_false, coyoteTimerUpdated, hg]
    exact max_eq_right (by linarith)
  have h2 : jumpKeyJustPressed s inp = false →
      (movePlayer s inp).1.jumpBufferTimer = s.jumpBufferTimer - inp.dt := by
    intro hp
    rw [movePlayer_state s inp hn]
    simp only [hl, Bool.false_eq_true, if_false, jumpBufferTimerUpdated, hp]
    exact max_eq_right (by linarith)
  refine ⟨h1, h2, fun h0 => ⟨fun hg => ?_, fun hp => ?_⟩⟩
  · rw [h1 hg, h0, sub_zero]
  · rw [h2 hp, h0, sub_zero]

/-- C16 (amended) at a concrete tick: from the initial state an airborne tick
with dt = 0 and no key held leaves the jump buffer timer unchanged. -/
theorem C16_nonpositive_dt_timers_witness :
    (demoAirTickDt 0).dt ≤ 0 ∧
    (movePlayer initialState (demoAirTickDt 0)).1.jumpBufferTimer
      = initialState.jumpBufferTimer :=
  ⟨le_refl _,
   ((C16_nonpositive_dt_timers initialState (demoAirTickDt 0) (by decide) (le_refl _)
      (le_refl _) (by norm_num [initialState, PLAYER_JUMP_BUFFER_TIME])
      (launches_false_of_airborne _ _ (groundCheck_demoAirTickDt _ _)
        (jumpKeyJustPressed_demoAirTickDt _ _))).2.2 rfl).2
     (jumpKeyJustPressed_demoAirTickDt _ _)⟩

/-! ## The division by dt in the deceleration clamp -/

theorem decelClampTaken_zero_dt (isGrounded leftKeyHeld rightKeyHeld : Bool)
    (velX mass : ℚ) :
    decelClampTaken isGrounded leftKeyHeld rightKeyHeld velX mass 0 = false := by
  have h : ¬ (0 : ℚ) > |velX| := not_lt.2 (abs_nonneg velX)
  simp [decelClampTaken, h]

theorem forceX_of_decelClampTaken (isGrounded leftKeyHeld rightKeyHeld : Bool)
    (velX mass dt : ℚ)
    (h : decelClampTaken isGrounded leftKeyHeld rightKeyHeld velX mass dt = true) :
    forceX isGrounded leftKeyHeld rightKeyHeld velX mass dt = -velX * mass / dt := by
  simp only [decelClampTaken, Bool.and_eq_true, Bool.not_eq_true', decide_eq_true_eq] at h
  obtain ⟨⟨⟨hk, hg⟩, hv⟩, hc⟩ := h
  unfold forceX
  rw [hk]
  simp only [Bool.false_eq_true, if_false]
  rw [if_pos ⟨hg, hv⟩, if_pos hc]

theorem forceX_of_not_decelClampTaken (isGrounded : Bool) (velX mass dt : ℚ)
    (hg : isGrounded = true) (hv : |velX| > 1 / 100)
    (h : decelClampTaken isGrounded false false velX mass dt = false) :
    forceX isGrounded false false velX mass dt =
      -sign velX * (PLAYER_GROUND_DECELERATION * mass) := by
  have hc : ¬ |(-sign velX * (PLAYER_GROUND_DECELERATION * mass)) * dt / mass| > |velX| := by
    intro hc
    have : decelClampTaken isGrounded false false velX mass dt = true := by
      simp only [decelClampTaken, Bool.and_eq_true, Bool.not_eq_true', decide_eq_true_eq]
      exact ⟨⟨⟨rfl, hg⟩, hv⟩, hc⟩
    rw [h] at this
    exact Bool.false_ne_true this
  unfold forceX
  simp only [Bool.or_self, Bool.false_eq_true, if_false]
  rw [if_pos ⟨hg, hv⟩, if_neg hc]

/-- C17: the division by dt of line 246 is never evaluated with dt = 0. For
every grounded flag, key combination, velocity and mass: with dt = 0 the clamp
branch is not taken (its condition |forceX * dt / mass| > |vx| is false, being
evaluated only when |vx| > 0.01); so whenever the branch is taken, where forceX
becomes -vx * mass / dt, dt is not 0; and the force of a decelerating tick (no
direction held, grounded, |vx| > 0.01) with dt = 0 is
-sign(vx) * groundDeceleration * mass. The branch is taken on other ticks,
such as the one with vx = 1, mass = 1, dt = 1/60. -/
theorem C17_no_division_by_zero_dt (isGrounded leftKeyHeld rightKeyHeld : Bool)
    (velX mass dt : ℚ) :
    decelClampTaken isGrounded leftKeyHeld rightKeyHeld velX mass 0 = false ∧
    (decelClampTaken isGrounded leftKeyHeld rightKeyHeld velX mass dt = true →
      dt ≠ 0 ∧
      forceX isGrounded leftKeyHeld rightKeyHeld velX mass dt = -velX * mass / dt) ∧
    (isGrounded = true → |velX| > 1 / 100 →
      forceX isGrounded false false velX mass 0 =
        -sign velX * (PLAYER_GROUND_DECELERATION * mass)) ∧
    decelClampTaken true false false 1 1 (1 / 60) = true := by
  refine ⟨decelClampTaken_zero_dt _ _ _ _ _, ?_, ?_, ?_⟩
  · intro h
    refine ⟨?_, forceX_of_decelClampTaken _ _ _ _ _ _ h⟩
    intro h0
    rw [h0, decelClampTaken_zero_dt] at h
    exact Bool.false_ne_true h
  · intro hg hv
    exact forceX_of_not_decelClampTaken isGrounded velX mass 0 hg hv
      (decelClampTaken_zero_dt _ _ _ _ _)
  · have hs : sign 1 = 1 := sign_pos 1 (by norm_num)
    simp only [decelClampTaken, hs, PLAYER_GROUND_DECELERATION]
    norm_num
    rw [abs_of_pos (by norm_num)]
    norm_num

/-! ## Grounded and jumping are exclusive -/

theorem movePlayer_runningSound (s : PlayerState) (inp : TickInput)
    (h : B2_IS_NULL inp.playerBodyId = false) :
    (movePlayer s inp).2.runningSoundPlay =
      (((movePlayer s inp).1.isGrounded && (inp.leftKeyHeld || inp.rightKeyHeld)) &&
        !inp.runningSoundPlaying) ∧
    (movePlayer s inp).2.runningSoundStop =
      (!((movePlayer s inp).1.isGrounded && (inp.leftKeyHeld || inp.rightKeyHeld)) &&
        inp.runningSoundPlaying) := by
  simp [movePlayer, h]

theorem movePlayer_not_grounded_and_jumping (s : PlayerState) (inp : TickInput)
    (hn : B2_IS_NULL inp.playerBodyId = false) :
    ¬ ((movePlayer s inp).1.isGrounded = true ∧ (movePlayer s inp).1.isJumping = true) := by
  rw [movePlayer_state s inp hn]
  cases hl : launches s inp
  · cases hg : groundCheck s inp <;> simp [isJumpingUpdated, hg]
  · simp

theorem runTicks_not_grounded_and_jumping (s : PlayerState) (inps : List TickInput)
    (hs : ¬ (s.isGrounded = true ∧ s.isJumping = true)) :
    ¬ ((runTicks s inps).isGrounded = true ∧ (runTicks s inps).isJumping = true) := by
  induction inps generalizing s with
  | nil => exact hs
  | cons inp rest ih =>
    simp only [runTicks]
    apply ih
    cases hn : B2_IS_NULL inp.playerBodyId
    · exact movePlayer_not_grounded_and_jumping s inp hn
    · rw [movePlayer_null s inp hn]
      exact hs

/-- C18: after every tick (valid player body), from any prior state and for
any input, isGrounded and isJumping are not both true; so in the gravity stage
"grounded and not jumping" is the same as "grounded", and a grounded tick sets
the base scale. On a launch tick the flag is false after the launch block, and
the animation, force and running-sound stages are evaluated with grounded =
false (the running cue is not started). The same exclusion holds in every state
of every run from the initial state. -/
theorem C18_grounded_jumping_exclusive (s : PlayerState) (inp : TickInput)
    (hn : B2_IS_NULL inp.playerBodyId = false) :
    ¬ ((movePlayer s inp).1.isGrounded = true ∧ (movePlayer s inp).1.isJumping = true) ∧
    ((movePlayer s inp).1.isGrounded && !(movePlayer s inp).1.isJumping) =
      (movePlayer s inp).1.isGrounded ∧
    ((movePlayer s inp).1.isGrounded = true →
      (movePlayer s inp).2.setGravityScale = some PLAYER_BASE_GRAVITY_SCALE) ∧
    (launches s inp = true →
      (movePlayer s inp).1.isGrounded = false ∧
      (movePlayer s inp).2.setPlayerAnimation =
        some (nextAnimation false inp.leftKeyHeld inp.rightKeyHeld inp.playerVel.y
                inp.playerGameObject.currentAnimationName, targetFacingLeft inp) ∧
      (movePlayer s inp).2.applyForceToCenter =
        (if forceX false inp.leftKeyHeld inp.rightKeyHeld inp.playerVel.x inp.playerMass
            inp.dt ≠ 0 then
          some ⟨forceX false inp.leftKeyHeld inp.rightKeyHeld inp.playerVel.x inp.playerMass
            inp.dt, 0⟩
        else none) ∧
      (movePlayer s inp).2.runningSoundPlay = false) ∧
    (∀ inps : List TickInput,
      ¬ ((runTicks initialState inps).isGrounded = true ∧
          (runTicks initialState inps).isJumping = true)) := by
  have hex := movePlayer_not_grounded_and_jumping s inp hn
  refine ⟨hex, ?_, ?_, ?_, ?_⟩
  · cases hg : (movePlayer s inp).1.isGrounded
    · rfl
    · cases hj : (movePlayer s inp).1.isJumping
      · rfl
      · exact absurd ⟨hg, hj⟩ hex
  · intro hg
    have hj : (movePlayer s inp).1.isJumping = false := by
      cases hj : (movePlayer s inp).1.isJumping
      · rfl
      · exact absurd ⟨hg, hj⟩ hex
    rw [movePlayer_setGravityScale s inp hn, hg, hj]
    simp [currentGravityScale]
  · intro hl
    have hg : (movePlayer s inp).1.isGrounded = false := by
      rw [movePlayer_state s inp hn]
      simp [hl]
    refine ⟨hg, ?_, ?_, ?_⟩
    · rw [movePlayer_setPlayerAnimation s inp hn, hg]
    · rw [movePlayer_applyForceToCenter s inp hn, hg]
    · rw [(movePlayer_runningSound s inp hn).1, hg]
      rfl
  · intro inps
    apply runTicks_not_grounded_and_jumping
    simp [initialState]

/-- C18 at a concrete tick: a fresh press while standing launches, and the
state after the tick is jumping and not grounded. -/
theorem C18_grounded_jumping_exclusive_witness :
    B2_IS_NULL demoGroundTickHeld.playerBodyId = false ∧
    ¬ ((movePlayer demoStandingState demoGroundTickHeld).1.isGrounded = true ∧
        (movePlayer demoStandingState demoGroundTickHeld).1.isJumping = true) :=
  ⟨by decide, (C18_grounded_jumping_exclusive demoStandingState demoGroundTickHeld
    (by decide)).1⟩

/-! ## Runs in which the jump key is never held -/

theorem unheld_tick_no_launch (s : PlayerState) (inp : TickInput)
    (hbuf : s.jumpBufferTimer = 0) (hheld : inp.jumpKeyHeld = false) (hdt : 0 ≤ inp.dt) :
    (movePlayer s inp).1.jumpBufferTimer = 0 ∧
    (movePlayer s inp).2.setLinearVelocity = none := by
  cases hn : B2_IS_NULL inp.playerBodyId
  · have hp : jumpKeyJustPressed s inp = false := by simp [jumpKeyJustPressed, hheld]
    have hb : jumpBufferTimerUpdated s inp = 0 := by
      simp only [jumpBufferTimerUpdated, hp, Bool.false_eq_true, if_false, hbuf]
      exact max_eq_left (by linarith)
    have hl : launches s inp = false := by
      simp [launches, tryJumpFromBuffer, hb, hp]
    rw [movePlayer_state s inp hn, movePlayer_setLinearVelocity s inp hn]
    simp [hl, hb]
  · rw [movePlayer_null s inp hn]
    exact ⟨hbuf, rfl⟩

theorem unheld_run_no_launch (s : PlayerState) (inps : List TickInput)
    (hbuf : s.jumpBufferTimer = 0)
    (h : ∀ i ∈ inps, i.jumpKeyHeld = false ∧ 0 ≤ i.dt) :
    ∀ o ∈ runOutputs s inps, o.setLinearVelocity = none := by
  induction inps generalizing s with
  | nil => simp [runOutputs]
  | cons inp rest ih =>
    obtain ⟨h1, h2⟩ := unheld_tick_no_launch s inp hbuf
      (h inp (List.mem_cons_self _ _)).1 (h inp (List.mem_cons_self _ _)).2
    intro o ho
    simp only [runOutputs, List.mem_cons] at ho
    rcases ho with ho | ho
    · rw [ho]
      exact h2
    · exact ih _ h1 (fun i hi => h i (List.mem_cons_of_mem _ hi)) o ho

/-- C19 (what the code does): the initial jumpBufferTimer is the full buffer
duration, so the very first tick from the initial state, at 60 Hz with no key
held and the player standing on a platform, is a landing with a positive
buffer: it launches a jump (sets the velocity to (0, initial jump velocity) and
plays the jump cue) although the jump key was never held. From any state whose
jumpBufferTimer is 0, no run with dt >= 0 and the jump key never held
launches. -/
theorem C19_launch_without_jump_key :
    initialState.jumpBufferTimer = PLAYER_JUMP_BUFFER_TIME ∧
    demoGroundTick.jumpKeyHeld = false ∧
    0 ≤ demoGroundTick.dt ∧
    launches initialState demoGroundTick = true ∧
    (runOutputs initialState [demoGroundTick]).map TickOutput.setLinearVelocity =
      [some ⟨0, PLAYER_INITIAL_JUMP_VELOCITY⟩] ∧
    (runOutputs initialState [demoGroundTick]).map TickOutput.jumpSoundPlay = [true] ∧
    (∀ (s : PlayerState) (inps : List TickInput), s.jumpBufferTimer = 0 →
      (∀ i ∈ inps, i.jumpKeyHeld = false ∧ 0 ≤ i.dt) →
      ∀ o ∈ runOutputs s inps, o.setLinearVelocity = none) := by
  have hn : B2_IS_NULL demoGroundTick.playerBodyId = false := by decide
  have hl : launches initialState demoGroundTick = true := by
    rw [launches_iff]
    left
    refine ⟨⟨groundCheck_demoGroundTick _, rfl⟩, ?_⟩
    norm_num [jumpBufferTimerUpdated, jumpKeyJustPressed, demoGroundTick, demoAirTick,
      initialState, PLAYER_JUMP_BUFFER_TIME]
  refine ⟨rfl, rfl, ?_, hl, ?_, ?_, unheld_run_no_launch⟩
  · norm_num [demoGroundTick, demoAirTick]
  · simp only [runOutputs, List.map_cons, List.map_nil]
    rw [movePlayer_setLinearVelocity _ _ hn, hl]
    rfl
  · simp only [runOutputs, List.map_cons, List.map_nil]
    rw [movePlayer_jumpSoundPlay _ _ hn, hl]
    rfl

/-! ## The derived jump constants -/

/-- C20: the derived jump constants realise the configured jump. With H the
jump height (5), T the time to apex (0.6), g = 2H/T^2 the effective gravity,
v0 = g*T the initial jump velocity and baseScale = g / worldGravity (10):
g = 250/9, v0 = 50/3, baseScale = 25/9, baseScale * worldGravity = g,
v0 - g*T = 0, v0*T - g*T^2/2 = H and v0^2 / (2g) = H. -/
theorem C20_jump_constants :
    PLAYER_EFFECTIVE_GRAVITY_MAGNITUDE =
      2 * PLAYER_JUMP_HEIGHT / PLAYER_TIME_TO_JUMP_APEX ^ 2 ∧
    PLAYER_INITIAL_JUMP_VELOCITY =
      PLAYER_EFFECTIVE_GRAVITY_MAGNITUDE * PLAYER_TIME_TO_JUMP_APEX ∧
    PLAYER_BASE_GRAVITY_SCALE = PLAYER_EFFECTIVE_GRAVITY_MAGNITUDE / WORLD_GRAVITY_MAGNITUDE ∧
    PLAYER_JUMP_HEIGHT = 5 ∧ PLAYER_TIME_TO_JUMP_APEX = 3 / 5 ∧ WORLD_GRAVITY_MAGNITUDE = 10 ∧
    PLAYER_EFFECTIVE_GRAVITY_MAGNITUDE = 250 / 9 ∧
    PLAYER_INITIAL_JUMP_VELOCITY = 50 / 3 ∧
    PLAYER_BASE_GRAVITY_SCALE = 25 / 9 ∧
    PLAYER_BASE_GRAVITY_SCALE * WORLD_GRAVITY_MAGNITUDE = PLAYER_EFFECTIVE_GRAVITY_MAGNITUDE ∧
    PLAYER_INITIAL_JUMP_VELOCITY -
      PLAYER_EFFECTIVE_GRAVITY_MAGNITUDE * PLAYER_TIME_TO_JUMP_APEX = 0 ∧
    PLAYER_INITIAL_JUMP_VELOCITY * PLAYER_TIME_TO_JUMP_APEX -
      PLAYER_EFFECTIVE_GRAVITY_MAGNITUDE * PLAYER_TIME_TO_JUMP_APEX ^ 2 / 2 =
        PLAYER_JUMP_HEIGHT ∧
    PLAYER_INITIAL_JUMP_VELOCITY ^ 2 / (2 * PLAYER_EFFECTIVE_GRAVITY_MAGNITUDE) =
      PLAYER_JUMP_HEIGHT := by
  refine ⟨?_, rfl, rfl, rfl, ?_, rfl, ?_, ?_, ?_, ?_, ?_, ?_, ?_⟩ <;>
    norm_num [PLAYER_BASE_GRAVITY_SCALE, PLAYER_INITIAL_JUMP_VELOCITY,
      PLAYER_EFFECTIVE_GRAVITY_MAGNITUDE, PLAYER_JUMP_HEIGHT, PLAYER_TIME_TO_JUMP_APEX,
      WORLD_GRAVITY_MAGNITUDE]

end Player
